import Mathlib

/-!
Wallet ledger of the MCP system

A shallow embedding of `server/models/Wallet.js` (the wallet document, its
schema validation and the two document methods `addTransaction` and
`updateTransactionStatus`) and of the wallet handlers of
`server/controllers/walletController.js`.

Conventions of the embedding

* Amounts and balances are integers (minor currency units).  The numbers of
  the source are doubles: on whole numbers up to `maxSafeInteger` in absolute
  value their sums and differences are exact and are those of the embedding;
  fractional amounts and larger values are outside the embedding.
* Timestamps (`Date.now()`, `createdAt`) are integers (milliseconds).
* ObjectIds are natural numbers.  The id that the document array gives to a
  pushed sub-document and the clock value are passed in by the caller.
* A document method works on the in-memory document `this`.  A call is
  described by the document as it is left in memory and by the error that
  was thrown, if any.  The document reaches the store only through a
  `save()` that passes schema validation.
-/

namespace MCPSystem

/-- Descriptive bag attached to a transaction (`metadata` in the schema). -/
structure Metadata where
  orderId : Option Nat := none
  transferredTo : Option Nat := none
  transferredFrom : Option Nat := none
  paymentMethod : Option String := none
  upiId : Option String := none
  bankDetails : Option String := none
deriving DecidableEq, Repr

/-- Sub-document of `transactions` as held by a wallet document. -/
structure Transaction where
  id : Nat
  type : String
  amount : Int
  description : String
  reference : String
  status : String
  metadata : Metadata
  createdAt : Int
deriving DecidableEq, Repr

/-- Plain object handed to `addTransaction`.  `status` may be absent, in which
case the schema default `PENDING` is used for the stored sub-document. -/
structure TransactionData where
  type : String
  amount : Int
  description : String
  reference : String
  status : Option String
  metadata : Metadata := {}
deriving DecidableEq, Repr

/-- Wallet document (`walletSchema`). -/
structure Wallet where
  userId : Nat
  balance : Int
  transactions : List Transaction
  lastUpdated : Int
deriving DecidableEq, Repr

/-- Result of a document method: the in-memory document after the call and
the message of the error thrown (`none` when the returned promise resolved,
that is when `save()` went through). -/
structure Outcome where
  doc : Wallet
  error : Option String
deriving DecidableEq, Repr

/-- Schema validation of one sub-document: `type` in its enum, `description`
and `reference` required (non-empty), `status` in its enum.  `amount` has no
bound in the schema. -/
def validTransaction (t : Transaction) : Bool :=
  (t.type == "CREDIT" || t.type == "DEBIT") &&
  t.description != "" &&
  t.reference != "" &&
  (t.status == "PENDING" || t.status == "COMPLETED" || t.status == "FAILED")

/-- Schema validation of a wallet document: `balance` has `min: 0`, every
sub-document is valid. -/
def validate (w : Wallet) : Bool :=
  decide (0 ≤ w.balance) && w.transactions.all validTransaction

/-- Model of `this.save()`: validation runs first, a document that fails it is
rejected with a validation error (its message is given by its leading words)
and is not written.  Every wallet that is in the store has passed it. -/
def save (w : Wallet) : Outcome :=
  if validate w then ⟨w, none⟩ else ⟨w, some "Wallet validation failed"⟩

/-- Sub-document created by `this.transactions.push(transactionData)`: the
array casts the object, assigns the id `oid` and fills the defaults
(`status: PENDING`, `createdAt: Date.now`). -/
def castTransaction (td : TransactionData) (oid : Nat) (now : Int) : Transaction :=
  { id := oid
    type := td.type
    amount := td.amount
    description := td.description
    reference := td.reference
    status := td.status.getD "PENDING"
    metadata := td.metadata
    createdAt := now }

/-- Embedding of `walletSchema.methods.addTransaction` (Wallet.js 75-91). -/
def addTransaction (w : Wallet) (transactionData : TransactionData) (oid : Nat) (now : Int) :
    Outcome :=
  let w1 : Wallet :=
    { w with transactions := w.transactions ++ [castTransaction transactionData oid now]
             lastUpdated := now }
  if transactionData.status = some "COMPLETED" then
    if transactionData.type = "CREDIT" then
      save { w1 with balance := w1.balance + transactionData.amount }
    else if transactionData.type = "DEBIT" then
      if w1.balance < transactionData.amount then
        ⟨w1, some "Insufficient balance"⟩
      else
        save { w1 with balance := w1.balance - transactionData.amount }
    else save w1
  else save w1

/-- Assignment `transaction.status = newStatus` on the sub-document returned by
`this.transactions.id(transactionId)`, the first one carrying that id. -/
def setStatus : List Transaction → Nat → String → List Transaction
  | [], _, _ => []
  | t :: ts, transactionId, newStatus =>
    if t.id = transactionId then { t with status := newStatus } :: ts
    else t :: setStatus ts transactionId newStatus

/-- Lookup `this.transactions.id(transactionId)`. -/
def findById (l : List Transaction) (transactionId : Nat) : Option Transaction :=
  l.find? (fun t => decide (t.id = transactionId))

/-- Embedding of `walletSchema.methods.updateTransactionStatus`
(Wallet.js 94-117). -/
def updateTransactionStatus (w : Wallet) (transactionId : Nat) (newStatus : String)
    (now : Int) : Outcome :=
  match findById w.transactions transactionId with
  | none => ⟨w, some "Transaction not found"⟩
  | some transaction =>
    let oldStatus := transaction.status
    let w1 : Wallet := { w with transactions := setStatus w.transactions transactionId newStatus }
    if newStatus = "COMPLETED" ∧ oldStatus ≠ "COMPLETED" then
      if transaction.type = "CREDIT" then
        save { w1 with balance := w1.balance + transaction.amount, lastUpdated := now }
      else if transaction.type = "DEBIT" then
        if w1.balance < transaction.amount then
          ⟨w1, some "Insufficient balance"⟩
        else
          save { w1 with balance := w1.balance - transaction.amount, lastUpdated := now }
      else save { w1 with lastUpdated := now }
    else save { w1 with lastUpdated := now }

/-- Wallet held by the store after a call on the stored wallet `w`: the saved
document when the call resolved, the old one when it threw. -/
def stored (w : Wallet) (r : Outcome) : Wallet :=
  if r.error = none then r.doc else w

/-- Sum of the amounts of the COMPLETED records of the given type. -/
def completedSum (type : String) (l : List Transaction) : Int :=
  ((l.filter (fun t => decide (t.status = "COMPLETED" ∧ t.type = type))).map
    (fun t => t.amount)).sum

/-- Balance derived from the log: completed credits minus completed debits. -/
def ledgerBalance (l : List Transaction) : Int :=
  completedSum "CREDIT" l - completedSum "DEBIT" l

/-- Sum invariant of a wallet. -/
def sumInvariant (w : Wallet) : Prop := w.balance = ledgerBalance w.transactions

instance (w : Wallet) : Decidable (sumInvariant w) := by
  unfold sumInvariant; infer_instance

/-- One call of a document method. -/
inductive Op where
  | add (transactionData : TransactionData) (oid : Nat) (now : Int)
  | update (transactionId : Nat) (newStatus : String) (now : Int)
deriving DecidableEq, Repr

/-- Outcome of one call on the document `w`. -/
def Op.run (w : Wallet) : Op → Outcome
  | .add td oid now => addTransaction w td oid now
  | .update tid s now => updateTransactionStatus w tid s now

/-- Store contents after a sequence of calls, each made on the wallet as
loaded from the store. -/
def runStored (w : Wallet) : List Op → Wallet
  | [] => w
  | op :: ops => runStored (stored w (op.run w)) ops

/-- Whether the call moves a COMPLETED record of `w` to another status. -/
def Op.demotes (w : Wallet) : Op → Bool
  | .add _ _ _ => false
  | .update transactionId newStatus _ =>
    match findById w.transactions transactionId with
    | some t => t.status == "COMPLETED" && newStatus != "COMPLETED"
    | none => false

/-- No call of the sequence, run from the stored wallet `w`, moves a
COMPLETED record to another status. -/
def noDemotion (w : Wallet) : List Op → Bool
  | [] => true
  | op :: ops => !op.demotes w && noDemotion (stored w (op.run w)) ops

/-- Document after a sequence of calls all made on one in-memory document:
each call works on the document as the call before left it, whether that call
resolved or threw. -/
def runDoc (w : Wallet) : List Op → Wallet
  | [] => w
  | op :: ops => runDoc (op.run w).doc ops

/-- In a sequence of calls made on one in-memory document `w`, no call moves
a COMPLETED record to another status and no call is refused with
`Insufficient balance`. -/
def cleanOnDocument (w : Wallet) : List Op → Bool
  | [] => true
  | op :: ops =>
    !op.demotes w && decide ((op.run w).error ≠ some "Insufficient balance") &&
      cleanOnDocument (op.run w).doc ops

/-- Largest safe integer of the numbers of the source
(`Number.MAX_SAFE_INTEGER`): up to it in absolute value, sums and differences
of whole numbers are computed exactly. -/
def maxSafeInteger : Int := 2 ^ 53 - 1

/-- Sum of the absolute amounts of the records of a log; it bounds every sum
over a part of the log. -/
def absoluteTotal (l : List Transaction) : Int :=
  (l.map (fun t => (t.amount.natAbs : Int))).sum

/-- The balance of the wallet and the absolute total of its log do not exceed
the largest safe integer. -/
def exactRange (w : Wallet) : Bool :=
  decide ((w.balance.natAbs : Int) ≤ maxSafeInteger) &&
    decide (absoluteTotal w.transactions ≤ maxSafeInteger)

/-- The amount handed to the call does not exceed the largest safe integer
in absolute value (a status update hands over no amount). -/
def Op.amountExact : Op → Bool
  | .add transactionData _ _ => decide ((transactionData.amount.natAbs : Int) ≤ maxSafeInteger)
  | .update _ _ _ => true

/-- A sequence of calls for one document: a CREDIT refused by validation, a
CREDIT, a staged DEBIT, its completion. -/
def documentOps : List Op :=
  [Op.add { type := "CREDIT", amount := -50, description := "d", reference := "r"
            status := some "COMPLETED" } 1 1,
   Op.add { type := "CREDIT", amount := 70, description := "d", reference := "r"
            status := some "COMPLETED" } 2 2,
   Op.add { type := "DEBIT", amount := 15, description := "d", reference := "r"
            status := some "PENDING" } 3 3,
   Op.update 3 "COMPLETED" 4]

/-- A COMPLETED DEBIT of 150 followed by a COMPLETED CREDIT of 10. -/
def refusedThenCredit : List Op :=
  [Op.add { type := "DEBIT", amount := 150, description := "d", reference := "r"
            status := some "COMPLETED" } 1 1,
   Op.add { type := "CREDIT", amount := 10, description := "d", reference := "r"
            status := some "COMPLETED" } 2 2]

/-- A COMPLETED CREDIT of 100. -/
def completedCredit : Transaction :=
  { id := 1, type := "CREDIT", amount := 100, description := "d", reference := "r"
    status := "COMPLETED", metadata := {}, createdAt := 1 }

/-- Wallet with balance 100 and one COMPLETED CREDIT of 100. -/
def creditedWallet : Wallet :=
  { userId := 1, balance := 100, transactions := [completedCredit], lastUpdated := 1 }

/-- A sequence of calls: a refused CREDIT, a CREDIT, a staged DEBIT, its
completion, a DEBIT refused for lack of funds. -/
def ledgerOps : List Op :=
  [Op.add { type := "CREDIT", amount := -50, description := "d", reference := "r"
            status := some "COMPLETED" } 1 1,
   Op.add { type := "CREDIT", amount := 70, description := "d", reference := "r"
            status := some "COMPLETED" } 2 2,
   Op.add { type := "DEBIT", amount := 30, description := "d", reference := "r"
            status := some "PENDING" } 3 3,
   Op.update 3 "COMPLETED" 4,
   Op.add { type := "DEBIT", amount := 100, description := "d", reference := "r"
            status := some "COMPLETED" } 5 5]

/-- Wallet with balance 0 and one FAILED CREDIT of 100. -/
def failedCreditWallet : Wallet :=
  { userId := 1, balance := 0, lastUpdated := 1
    transactions :=
      [{ id := 1, type := "CREDIT", amount := 100, description := "d", reference := "r"
         status := "FAILED", metadata := {}, createdAt := 1 }] }

/-- Wallet with balance 0 and one PENDING DEBIT of 50. -/
def pendingDebitWallet : Wallet :=
  { userId := 1, balance := 0, lastUpdated := 1
    transactions :=
      [{ id := 1, type := "DEBIT", amount := 50, description := "d", reference := "r"
         status := "PENDING", metadata := {}, createdAt := 1 }] }

/-- Wallet of user 1 with the given balance and an empty log. -/
def fundedWallet (balance : Int) : Wallet :=
  { userId := 1, balance := balance, transactions := [], lastUpdated := 0 }

/-- Wallet of user 2 with the given balance and an empty log. -/
def partnerWallet (balance : Int) : Wallet :=
  { userId := 2, balance := balance, transactions := [], lastUpdated := 0 }

/-- Empty wallet of a user. -/
def emptyWallet (userId : Nat) (now : Int) : Wallet :=
  { userId := userId, balance := 0, transactions := [], lastUpdated := now }

/-! ## Controllers (`server/controllers/walletController.js`) -/

/-- User document, as far as the wallet handlers read it. -/
structure User where
  id : Nat
  name : String
  role : String
  mcpId : Option Nat
  walletBalance : Int
deriving DecidableEq, Repr

/-- Document of the `Transaction` model, written by `modifyWallet`: the fields
the handler sets.  `id` is the ObjectId given by the constructor. -/
structure TransactionDoc where
  id : Nat
  userId : Nat
  amount : Int
  type : String
  reason : Option String
  balanceAfter : Int
deriving DecidableEq, Repr

/-- Contents of the store: the `User`, the `Wallet` and the `Transaction`
collections. -/
structure Db where
  users : List User
  wallets : List Wallet
  transactions : List TransactionDoc := []
deriving DecidableEq, Repr

/-- Query `User.findById(id)`. -/
def findUser (db : Db) (id : Nat) : Option User :=
  db.users.find? (fun u => decide (u.id = id))

/-- Query `Wallet.findOne({ userId })`. -/
def findWallet (db : Db) (userId : Nat) : Option Wallet :=
  db.wallets.find? (fun w => decide (w.userId = userId))

/-- Write of a saved wallet document over the stored one it was loaded from
(the first wallet of that user). -/
def replaceWallet : List Wallet → Wallet → List Wallet
  | [], _ => []
  | w :: ws, d => if w.userId = d.userId then d :: ws else w :: replaceWallet ws d

/-- Store after a resolved `save()` of the wallet document `d`. -/
def saveWallet (db : Db) (d : Wallet) : Db :=
  { db with wallets := replaceWallet db.wallets d }

/-- Call `session.abortTransaction()`.  The handlers start a session but never
hand it to a query or to `save()`, so no read or write belongs to the
transaction and aborting it takes nothing back: the store stays as it is. -/
def abortTransaction (db : Db) : Db := db

/-- JSON body sent by a handler (`message` is empty and `error` is `none`
where the body has no such key). -/
structure Response (α : Type) where
  status : Nat
  success : Bool
  message : String
  error : Option String
  data : Option α
deriving DecidableEq, Repr

/-- Result of a handler: the store afterwards and the response. -/
structure Handled (α : Type) where
  db : Db
  response : Response α
deriving DecidableEq, Repr

/-- The `catch` branch of a handler: abort the session, answer 500. -/
def failWith {α : Type} (db : Db) (message : String) (error : String) : Handled α :=
  { db := abortTransaction db
    response := { status := 500, success := false, message := message, error := some error,
                  data := none } }

/-- Payload of a successful transfer. -/
structure TransferData where
  mcpBalance : Int
  partnerBalance : Int
  transaction : Option Transaction
deriving DecidableEq, Repr

/-- Value of `description || fallback`. -/
def orElseString (description : Option String) (fallback : String) : String :=
  match description with
  | some s => if s = "" then fallback else s
  | none => fallback

/-- Embedding of `exports.transferFunds` (walletController.js 179-260).
`userId` is `req.user.userId`; `partnerId`, `amount`, `description` come from
the body; `oid₁`, `oid₂` are the ids given to the two pushed records. -/
def transferFunds (db : Db) (userId partnerId : Nat) (amount : Int)
    (description : Option String) (now : Int) (oid₁ oid₂ : Nat) : Handled TransferData :=
  let msg := "Error transferring funds"
  match findUser db userId with
  | none => failWith db msg "Cannot read properties of null"
  | some mcp =>
    if mcp.role ≠ "MCP" then failWith db msg "Only MCPs can transfer funds" else
    match findUser db partnerId with
    | none => failWith db msg "Invalid pickup partner"
    | some partner =>
      if partner.role ≠ "PICKUP_PARTNER" then failWith db msg "Invalid pickup partner" else
      match partner.mcpId with
      | none => failWith db msg "Cannot read properties of undefined"
      | some parent =>
        if parent ≠ mcp.id then failWith db msg "Invalid pickup partner" else
        match findWallet db mcp.id, findWallet db partnerId with
        | some mcpWallet, some partnerWallet =>
          if mcpWallet.balance < amount then failWith db msg "Insufficient balance" else
          let reference := "TRF-" ++ toString now
          let debit := addTransaction mcpWallet
            { type := "DEBIT", amount := amount
              description := "Transfer to " ++ partner.name
              reference := reference, status := some "COMPLETED"
              metadata := { transferredTo := some partnerId } } oid₁ now
          match debit.error with
          | some e => failWith db msg e
          | none =>
            let db₁ := saveWallet db debit.doc
            let credit := addTransaction partnerWallet
              { type := "CREDIT", amount := amount
                description := orElseString description ("Received from " ++ mcp.name)
                reference := reference, status := some "COMPLETED"
                metadata := { transferredFrom := some mcp.id } } oid₂ now
            match credit.error with
            | some e => failWith db₁ msg e
            | none =>
              { db := saveWallet db₁ credit.doc
                response :=
                  { status := 200, success := true
                    message := "Funds transferred successfully", error := none
                    data := some { mcpBalance := debit.doc.balance
                                   partnerBalance := credit.doc.balance
                                   transaction := debit.doc.transactions.getLast? } } }
        | _, _ => failWith db msg "Wallet not found"

/-- Payload of `withdrawFunds` (and of `addFunds`). -/
structure BalanceData where
  balance : Int
  transaction : Option Transaction
deriving DecidableEq, Repr

/-- Embedding of `exports.withdrawFunds` (walletController.js 323-375). -/
def withdrawFunds (db : Db) (userId : Nat) (amount : Int) (bankDetails : Option String)
    (now : Int) (oid : Nat) : Handled BalanceData :=
  let msg := "Error processing withdrawal"
  match findWallet db userId with
  | none => failWith db msg "Wallet not found"
  | some wallet =>
    if wallet.balance < amount then failWith db msg "Insufficient balance" else
    let r := addTransaction wallet
      { type := "DEBIT", amount := amount
        description := "Withdrawal request"
        reference := "WTH-" ++ toString now, status := some "PENDING"
        metadata := { bankDetails := bankDetails } } oid now
    match r.error with
    | some e => failWith db msg e
    | none =>
      { db := saveWallet db r.doc
        response :=
          { status := 200, success := true
            message := "Withdrawal request submitted successfully", error := none
            data := some { balance := r.doc.balance
                           transaction := r.doc.transactions.getLast? } } }

/-! ### Transaction history

`page` and `limit` are read from `req.query`, where every supplied value is a
string; the destructuring defaults (the numbers 1 and 10) apply only to an
absent key.  The arithmetic of the handler therefore runs on values that are
numbers or strings, with the coercions of the language.  Numbers are integers
or NaN (`none`); numerals with a fraction, an exponent, a radix mark or
blanks are outside the model and read as NaN. -/

/-- Value of a script variable in the handler: a number (`none` is NaN) or a
string. -/
inductive JsValue where
  | number (n : Option Int)
  | string (s : String)
deriving DecidableEq, Repr

/-- Value of a run of decimal digits, `none` when a character is not a digit. -/
def parseDigits : List Char → Nat → Option Nat
  | [], acc => some acc
  | c :: cs, acc =>
    if c.isDigit then parseDigits cs (acc * 10 + (c.toNat - 48)) else none

/-- Conversion `Number(s)` of a string: the empty string is 0, a signed run of
digits is its value, anything else is NaN. -/
def stringToNumber (s : String) : Option Int :=
  match s.data with
  | [] => some 0
  | '-' :: cs => if cs = [] then none else (parseDigits cs 0).map (fun n => - (n : Int))
  | '+' :: cs => if cs = [] then none else (parseDigits cs 0).map (fun n => (n : Int))
  | cs => (parseDigits cs 0).map (fun n => (n : Int))

/-- Numeric coercion of a value. -/
def JsValue.toNumber : JsValue → Option Int
  | .number n => n
  | .string s => stringToNumber s

/-- String coercion of a value. -/
def JsValue.toStr : JsValue → String
  | .number none => "NaN"
  | .number (some n) => toString n
  | .string s => s

/-- Operator `a - b`: always numeric. -/
def JsValue.sub (a b : JsValue) : JsValue :=
  .number (do let x ← a.toNumber; let y ← b.toNumber; pure (x - y))

/-- Operator `a * b`: always numeric. -/
def JsValue.mul (a b : JsValue) : JsValue :=
  .number (do let x ← a.toNumber; let y ← b.toNumber; pure (x * y))

/-- Operator `a + b`: numeric when both sides are numbers, string
concatenation as soon as one side is a string. -/
def JsValue.add (a b : JsValue) : JsValue :=
  match a, b with
  | .number x, .number y => .number (do let n ← x; let m ← y; pure (n + m))
  | _, _ => .string (a.toStr ++ b.toStr)

/-- Index coercion of `Array.prototype.slice`: NaN is 0, a negative index
counts from the end. -/
def sliceIndex (len : Nat) (v : JsValue) : Nat :=
  match v.toNumber with
  | none => 0
  | some n => if n < 0 then (len - n.natAbs) else min n.toNat len

/-- Method `Array.prototype.slice(start, end)`. -/
def slice {α : Type} (l : List α) (start stop : JsValue) : List α :=
  let k := sliceIndex l.length start
  let final := sliceIndex l.length stop
  (l.drop k).take (final - k)

/-- Value of `Math.ceil(total / limit)` as it is serialised: `none` stands
for the JSON `null` of a NaN or an infinite quotient. -/
def ceilDiv (total : Nat) (limit : JsValue) : Option Int :=
  match limit.toNumber with
  | none => none
  | some n =>
    if n = 0 then none
    else if 0 < n then some (((total : Int) + n - 1) / n)
    else some (- ((total : Int) / (- n)))

/-- Leading digits of a list of characters. -/
def takeDigits : List Char → List Char
  | [] => []
  | c :: cs => if c.isDigit then c :: takeDigits cs else []

/-- Function `parseInt(v)`: the value of the longest signed run of leading
digits of the string form of `v`, NaN when there is none. -/
def parseInt (v : JsValue) : Option Int :=
  let digits (cs : List Char) : Option Nat :=
    if takeDigits cs = [] then none else parseDigits (takeDigits cs) 0
  match v.toStr.data with
  | '-' :: cs => (digits cs).map (fun n => - (n : Int))
  | '+' :: cs => (digits cs).map (fun n => (n : Int))
  | cs => (digits cs).map (fun n => (n : Int))

/-- Query parameters of `getTransactionHistory` (`req.query`). -/
structure HistoryQuery where
  startDate : Option String := none
  endDate : Option String := none
  type : Option String := none
  status : Option String := none
  page : Option String := none
  limit : Option String := none
deriving DecidableEq, Repr

/-- Truthiness of an optional query string. -/
def truthy (s : Option String) : Bool :=
  match s with
  | some x => x != ""
  | none => false

/-- The filters of the handler, applied one after the other.  `parseDate` is
the `Date` constructor on strings (`none` for an invalid date, which compares
false with everything). -/
def applyFilters (parseDate : String → Option Int) (q : HistoryQuery)
    (l : List Transaction) : List Transaction :=
  let l₁ :=
    if truthy q.startDate && truthy q.endDate then
      l.filter (fun t =>
        match parseDate (q.startDate.getD ""), parseDate (q.endDate.getD "") with
        | some lo, some hi => decide (lo ≤ t.createdAt) && decide (t.createdAt ≤ hi)
        | _, _ => false)
    else l
  let l₂ := if truthy q.type then l₁.filter (fun t => t.type == q.type.getD "") else l₁
  if truthy q.status then l₂.filter (fun t => t.status == q.status.getD "") else l₂

/-- The sort `transactions.sort((a, b) => b.createdAt - a.createdAt)`: a
stable sort by `createdAt` descending. -/
def sortByDateDesc (l : List Transaction) : List Transaction :=
  l.insertionSort (fun a b => b.createdAt ≤ a.createdAt)

/-- Pagination block of the history response. -/
structure Pagination where
  total : Nat
  page : Option Int
  totalPages : Option Int
deriving DecidableEq, Repr

/-- Payload of `getTransactionHistory`. -/
structure HistoryData where
  transactions : List Transaction
  pagination : Pagination
deriving DecidableEq, Repr

/-- Result of `getTransactionHistory`: the response and the wallet document
as the handler leaves it in memory (nothing is saved). -/
structure HistoryResult where
  wallet : Option Wallet
  response : Response HistoryData
deriving DecidableEq, Repr

/-- Embedding of `exports.getTransactionHistory` (walletController.js
263-320).  When no filter applies, `transactions` is the array of the wallet
document itself and the sort works in place on it. -/
def getTransactionHistory (parseDate : String → Option Int) (db : Db) (userId : Nat)
    (q : HistoryQuery) : HistoryResult :=
  let page : JsValue := match q.page with
    | some s => .string s
    | none => .number (some 1)
  let limit : JsValue := match q.limit with
    | some s => .string s
    | none => .number (some 10)
  let skip := (page.sub (.number (some 1))).mul limit
  match findWallet db userId with
  | none =>
    { wallet := none
      response := { status := 404, success := false, message := "Wallet not found"
                    error := none, data := none } }
  | some wallet =>
    let filtered := applyFilters parseDate q wallet.transactions
    let sorted := sortByDateDesc filtered
    let aliased : Bool :=
      !(truthy q.startDate && truthy q.endDate) && !truthy q.type && !truthy q.status
    let totalTransactions := sorted.length
    { wallet := some (if aliased then { wallet with transactions := sorted } else wallet)
      response :=
        { status := 200, success := true, message := "", error := none
          data := some
            { transactions := slice sorted skip (skip.add limit)
              pagination :=
                { total := totalTransactions
                  page := parseInt page
                  totalPages := ceilDiv totalTransactions limit } } } }

/-- Payload of `getWalletDetails`. -/
structure WalletDetails where
  balance : Int
  recentTransactions : List Transaction
deriving DecidableEq, Repr

/-- Result of `getWalletDetails`: the response and the wallet document as the
handler leaves it in memory (nothing is saved). -/
structure DetailsResult where
  wallet : Option Wallet
  response : Response WalletDetails
deriving DecidableEq, Repr

/-- Embedding of `exports.getWalletDetails` (walletController.js 87-118).
The sort is called on `wallet.transactions` itself and works in place; `slice`
then copies the first ten. -/
def getWalletDetails (db : Db) (userId : Nat) : DetailsResult :=
  match findWallet db userId with
  | none =>
    { wallet := none
      response := { status := 404, success := false, message := "Wallet not found"
                    error := none, data := none } }
  | some wallet =>
    let sorted := sortByDateDesc wallet.transactions
    { wallet := some { wallet with transactions := sorted }
      response :=
        { status := 200, success := true, message := "", error := none
          data := some
            { balance := wallet.balance
              recentTransactions := slice sorted (.number (some 0)) (.number (some 10)) } } }

/-- Object `{ paymentMethod, ...paymentDetails }`: the keys of
`paymentDetails` come last and win. -/
def paymentMetadata (paymentMethod : Option String) (paymentDetails : Option Metadata) :
    Metadata :=
  match paymentDetails with
  | none => { paymentMethod := paymentMethod }
  | some d =>
    { d with paymentMethod := match d.paymentMethod with
                              | some m => some m
                              | none => paymentMethod }

/-- Embedding of `exports.addFunds` (walletController.js 121-176). -/
def addFunds (db : Db) (userId : Nat) (amount : Int) (paymentMethod : Option String)
    (paymentDetails : Option Metadata) (now : Int) (oid : Nat) : Handled BalanceData :=
  let msg := "Error adding funds"
  match findUser db userId with
  | none => failWith db msg "Cannot read properties of null"
  | some user =>
    if user.role ≠ "MCP" then failWith db msg "Only MCPs can add funds directly" else
    match findWallet db userId with
    | none => failWith db msg "Wallet not found"
    | some wallet =>
      let r := addTransaction wallet
        { type := "CREDIT", amount := amount
          description := "Funds added to wallet"
          reference := "ADD-" ++ toString now, status := some "COMPLETED"
          metadata := paymentMetadata paymentMethod paymentDetails } oid now
      match r.error with
      | some e => failWith db msg e
      | none =>
        { db := saveWallet db r.doc
          response :=
            { status := 200, success := true
              message := "Funds added successfully", error := none
              data := some { balance := r.doc.balance
                             transaction := r.doc.transactions.getLast? } } }

/-- Write of a saved user document over the stored one it was loaded from. -/
def replaceUser : List User → User → List User
  | [], _ => []
  | u :: us, d => if u.id = d.id then d :: us else u :: replaceUser us d

/-- Body and status sent by `modifyWallet`. -/
structure ModifyResponse where
  status : Nat
  message : String
  error : Option String
  transaction : Option TransactionDoc
deriving DecidableEq, Repr

/-- Result of `modifyWallet`: the store afterwards and the response. -/
structure Modified where
  db : Db
  response : ModifyResponse
deriving DecidableEq, Repr

/-- Embedding of `exports.modifyWallet` (walletController.js 7-48).  The
schemas of the `User` and `Transaction` models are not among the sources at
hand; their validation at `save()` is taken as the parameters `userValid` and
`transactionValid`.  `userId`, `amount`, `type`, `reason` come from the body;
`oid` is the id of the new `Transaction` document. -/
def modifyWallet (userValid : User → Bool) (transactionValid : TransactionDoc → Bool)
    (db : Db) (userId : Nat) (amount : Int) (type : String) (reason : Option String)
    (oid : Nat) : Modified :=
  let notFound : Modified :=
    { db := db
      response := { status := 404, message := "Pickup Partner not found", error := none
                    transaction := none } }
  let failed (db : Db) (e : String) : Modified :=
    { db := db
      response := { status := 500, message := "Transaction failed", error := some e
                    transaction := none } }
  match findUser db userId with
  | none => notFound
  | some partner =>
    if partner.role ≠ "PickupPartner" then notFound else
    let update (newBalance : Int) : Modified :=
      let saved : User := { partner with walletBalance := newBalance }
      if userValid saved then
        let db₁ : Db := { db with users := replaceUser db.users saved }
        let transaction : TransactionDoc :=
          { id := oid, userId := userId, amount := amount, type := type, reason := reason
            balanceAfter := newBalance }
        if transactionValid transaction then
          { db := { db₁ with transactions := db₁.transactions ++ [transaction] }
            response := { status := 200, message := "Transaction successful", error := none
                          transaction := some transaction } }
        else failed db₁ "Transaction validation failed"
      else failed db "User validation failed"
    if type = "credit" then update (partner.walletBalance + amount)
    else if type = "debit" then
      if partner.walletBalance < amount then
        { db := db
          response := { status := 400, message := "Insufficient balance", error := none
                        transaction := none } }
      else update (partner.walletBalance - amount)
    else
      { db := db
        response := { status := 400, message := "Invalid transaction type", error := none
                      transaction := none } }

end MCPSystem


namespace MCPSystem

/-- An MCP account. -/
def scenarioMcp : User :=
  { id := 1, name := "Test MCP", role := "MCP", mcpId := none, walletBalance := 0 }

/-- A pickup partner registered under `scenarioMcp`. -/
def scenarioPartner : User :=
  { id := 2, name := "Test Partner", role := "PICKUP_PARTNER", mcpId := some 1
    walletBalance := 0 }

/-- Store of scenario D: source balance 300, target balance 0. -/
def scenarioDb : Db :=
  { users := [scenarioMcp, scenarioPartner], wallets := [fundedWallet 300, partnerWallet 0] }

/-- Store of scenario B: a partner wallet with balance 500. -/
def partnerDb : Db :=
  { users := [scenarioMcp, scenarioPartner], wallets := [fundedWallet 0, partnerWallet 500] }

/-- Record number `i`, created at time `i`. -/
def sampleRecord (i : Nat) : Transaction :=
  { id := i, type := "CREDIT", amount := 1, description := "d", reference := "r"
    status := "COMPLETED", metadata := {}, createdAt := i }

/-- Store whose wallet of user 1 holds 25 records. -/
def historyDb : Db :=
  { users := [scenarioMcp]
    wallets := [{ userId := 1, balance := 25, transactions := (List.range 25).map sampleRecord
                  lastUpdated := 0 }] }

/-- Payload of the history of user 1 in `historyDb` for the given `limit` and
`page` of the query string, no filter. -/
def historyPage (limit : Option String) (page : String) : Option HistoryData :=
  (getTransactionHistory (fun _ => none) historyDb 1
    { page := some page, limit := limit }).response.data

/-- Store whose wallet of user 1 holds three records in the order they were
appended, oldest first. -/
def chronoDb : Db :=
  { users := [scenarioMcp]
    wallets := [{ userId := 1, balance := 3, transactions := (List.range 3).map sampleRecord
                  lastUpdated := 0 }] }

/-- Store of scenario A: an MCP wallet with balance 0 and an empty log. -/
def emptyMcpDb : Db :=
  { users := [scenarioMcp, scenarioPartner], wallets := [fundedWallet 0, partnerWallet 0] }

/-- Store of scenario C: source balance 100, target balance 0. -/
def shortDb : Db :=
  { users := [scenarioMcp, scenarioPartner], wallets := [fundedWallet 100, partnerWallet 0] }

/-- Selection made by a history query, in the words of the filter rule: the
date range counts only when both `startDate` and `endDate` are supplied
(non-empty), in which case the record must lie between the two dates, both
ends included (no record does when a date is invalid); `type` and `status`
must be equal to the requested value when one is supplied (non-empty). -/
def selects (parseDate : String → Option Int) (q : HistoryQuery) (r : Transaction) : Bool :=
  (if truthy q.startDate && truthy q.endDate then
    match parseDate (q.startDate.getD ""), parseDate (q.endDate.getD "") with
    | some lo, some hi => decide (lo ≤ r.createdAt) && decide (r.createdAt ≤ hi)
    | _, _ => false
   else true) &&
  (if truthy q.type then r.type == q.type.getD "" else true) &&
  (if truthy q.status then r.status == q.status.getD "" else true)

/-- Order of the history: a record comes before another when it is not
older. -/
def notOlder (a b : Transaction) : Prop := b.createdAt ≤ a.createdAt

/-- An account with the role that `modifyWallet` asks for, balance 100. -/
def legacyPartner : User :=
  { id := 5, name := "Partner", role := "PickupPartner", mcpId := none, walletBalance := 100 }

/-- Store holding `legacyPartner` and a pickup partner as the seed creates
them. -/
def legacyDb : Db :=
  { users := [legacyPartner, scenarioPartner], wallets := [] }

/-- Wallet of user 1 holding records created at 1, 3 and 5. -/
def datedWallet : Wallet :=
  { userId := 1, balance := 3, transactions := [1, 3, 5].map sampleRecord, lastUpdated := 0 }

/-- Store holding `datedWallet`. -/
def datedDb : Db :=
  { users := [scenarioMcp], wallets := [datedWallet] }

/-- A date parser for the examples: two calendar days as millisecond values. -/
def sampleParseDate (s : String) : Option Int :=
  if s = "2024-01-02" then some 2 else if s = "2024-01-04" then some 4 else none

end MCPSystem

/-! ## Properties of the wallet document methods -/

namespace MCPSystem

theorem save_doc (w : Wallet) : (save w).doc = w := by
  unfold save; split <;> rfl

theorem save_error_none_iff (w : Wallet) : (save w).error = none ↔ validate w = true := by
  unfold save; split <;> simp_all

theorem validate_balance {w : Wallet} (h : validate w = true) : 0 ≤ w.balance := by
  unfold validate at h
  simp only [Bool.and_eq_true, decide_eq_true_eq] at h
  exact h.1

/-- A call that resolved left a document that passed validation. -/
theorem addTransaction_resolved_valid (w : Wallet) (td : TransactionData) (oid : Nat)
    (now : Int) (h : (addTransaction w td oid now).error = none) :
    validate (addTransaction w td oid now).doc = true := by
  unfold addTransaction at h ⊢
  simp only at h ⊢
  split_ifs at h ⊢ <;> (rw [save_doc]; exact (save_error_none_iff _).1 h)

/-- A status update that resolved left a document that passed validation. -/
theorem updateTransactionStatus_resolved_valid (w : Wallet) (tid : Nat) (s : String)
    (now : Int) (h : (updateTransactionStatus w tid s now).error = none) :
    validate (updateTransactionStatus w tid s now).doc = true := by
  unfold updateTransactionStatus at h ⊢
  cases hf : findById w.transactions tid with
  | none => simp [hf] at h
  | some t =>
    simp only [hf] at h ⊢
    split_ifs at h ⊢ <;> (rw [save_doc]; exact (save_error_none_iff _).1 h)

/-- Whatever the call, the wallet held by the store keeps a balance that is
not negative. -/
theorem stored_balance_nonneg (w : Wallet) (op : Op) (h : 0 ≤ w.balance) :
    0 ≤ (stored w (op.run w)).balance := by
  unfold stored
  split_ifs with he
  · cases op with
    | add td oid now => exact validate_balance (addTransaction_resolved_valid w td oid now he)
    | update tid s now =>
      exact validate_balance (updateTransactionStatus_resolved_valid w tid s now he)
  · exact h

/-- C2, as stated, fails on the in-memory document: a COMPLETED CREDIT of -50
on an empty wallet leaves `balance = -50` on the document; the `save()` that
follows is rejected by the `min: 0` validator. -/
theorem C2_counterexample :
    0 ≤ (emptyWallet 1 0).balance ∧
    (addTransaction (emptyWallet 1 0)
      { type := "CREDIT", amount := -50, description := "d", reference := "r"
        status := some "COMPLETED" } 1 1).doc.balance = -50 ∧
    (addTransaction (emptyWallet 1 0)
      { type := "CREDIT", amount := -50, description := "d", reference := "r"
        status := some "COMPLETED" } 1 1).error = some "Wallet validation failed" := by
  decide

/-- C2 (amended): starting from a wallet whose balance is not negative, the
balance of the wallet held by the store is not negative after any sequence of
`addTransaction` and `updateTransactionStatus` calls with arbitrary
arguments; a call that would bring it below zero throws and stores nothing. -/
theorem C2_stored_balance_nonneg (w : Wallet) (ops : List Op) (h : 0 ≤ w.balance) :
    0 ≤ (runStored w ops).balance := by
  induction ops generalizing w with
  | nil => exact h
  | cons op ops ih => exact ih _ (stored_balance_nonneg w op h)

theorem C2_stored_balance_nonneg_witness :
    0 ≤ (emptyWallet 1 0).balance ∧
    0 ≤ (runStored (emptyWallet 1 0)
      [Op.add { type := "CREDIT", amount := -50, description := "d", reference := "r"
                status := some "COMPLETED" } 1 1,
       Op.add { type := "CREDIT", amount := 70, description := "d", reference := "r"
                status := some "COMPLETED" } 2 2,
       Op.add { type := "DEBIT", amount := 30, description := "d", reference := "r"
                status := some "PENDING" } 3 3,
       Op.update 3 "COMPLETED" 4]).balance :=
  ⟨by decide, C2_stored_balance_nonneg _ _ (by decide)⟩

theorem completedSum_cons (ty : String) (a : Transaction) (l : List Transaction) :
    completedSum ty (a :: l) =
      (if a.status = "COMPLETED" ∧ a.type = ty then a.amount else 0) + completedSum ty l := by
  unfold completedSum
  by_cases h : a.status = "COMPLETED" ∧ a.type = ty
  · simp [List.filter_cons, h]
  · simp [List.filter_cons, h]

theorem completedSum_append_one (ty : String) (l : List Transaction) (t : Transaction) :
    completedSum ty (l ++ [t]) =
      completedSum ty l + (if t.status = "COMPLETED" ∧ t.type = ty then t.amount else 0) := by
  induction l with
  | nil =>
    rw [List.nil_append, completedSum_cons]
    simp [completedSum]
  | cons a l ih => rw [List.cons_append, completedSum_cons, completedSum_cons, ih]; ring

theorem findById_cons (a : Transaction) (l : List Transaction) (tid : Nat) :
    findById (a :: l) tid = if a.id = tid then some a else findById l tid := by
  unfold findById
  by_cases h : a.id = tid <;> simp [List.find?_cons, h]

theorem completedSum_setStatus (ty : String) (l : List Transaction) (tid : Nat) (s : String)
    (t : Transaction) (h : findById l tid = some t) :
    completedSum ty (setStatus l tid s) =
      completedSum ty l - (if t.status = "COMPLETED" ∧ t.type = ty then t.amount else 0)
        + (if s = "COMPLETED" ∧ t.type = ty then t.amount else 0) := by
  induction l with
  | nil => simp [findById] at h
  | cons a l ih =>
    rw [findById_cons] at h
    by_cases ha : a.id = tid
    · rw [if_pos ha] at h
      cases h
      simp only [setStatus, if_pos ha, completedSum_cons]
      ring
    · rw [if_neg ha] at h
      simp only [setStatus, if_neg ha, completedSum_cons, ih h]
      ring

theorem getD_pending_ne_completed (st : Option String) (h : ¬ st = some "COMPLETED") :
    st.getD "PENDING" ≠ "COMPLETED" := by
  cases st with
  | none => decide
  | some x => simpa using h

/-- A resolved `addTransaction` keeps the sum invariant. -/
theorem addTransaction_sumInvariant (w : Wallet) (td : TransactionData) (oid : Nat)
    (now : Int) (hinv : sumInvariant w) (h : (addTransaction w td oid now).error = none) :
    sumInvariant (addTransaction w td oid now).doc := by
  unfold sumInvariant ledgerBalance at hinv ⊢
  unfold addTransaction at h ⊢
  simp only at h ⊢
  split_ifs at h ⊢ with h1 h2 h3 h4 <;>
    simp only [save_doc, completedSum_append_one, castTransaction, h1, Option.getD_some] <;>
    first
    | (simp [*]; done)
    | (simp [*]; omega)
    | (simp [getD_pending_ne_completed _ h1, hinv])

/-- A resolved `updateTransactionStatus` keeps the sum invariant, unless it
moves a COMPLETED record to another status. -/
theorem updateTransactionStatus_sumInvariant (w : Wallet) (tid : Nat) (s : String) (now : Int)
    (hinv : sumInvariant w) (hd : (Op.update tid s now).demotes w = false)
    (h : (updateTransactionStatus w tid s now).error = none) :
    sumInvariant (updateTransactionStatus w tid s now).doc := by
  unfold sumInvariant ledgerBalance at hinv ⊢
  unfold updateTransactionStatus at h ⊢
  unfold Op.demotes at hd
  cases hf : findById w.transactions tid with
  | none => simp [hf] at h
  | some t =>
    simp only [hf] at h hd ⊢
    simp only [Bool.and_eq_false_imp, beq_iff_eq, bne_eq_false_iff_eq] at hd
    split_ifs at h ⊢ with h1 h2 h3 h4 <;>
      simp only [save_doc, completedSum_setStatus _ _ _ _ _ hf]
    · rw [hinv]; simp [h1.1, h1.2, h2]; ring
    · rw [hinv]; simp [h1.1, h1.2, h2, h3]; ring
    · rw [hinv]; simp [h1.1, h1.2, h2, h3]
    · rw [hinv]
      by_cases hs : t.status = "COMPLETED"
      · simp [hs, hd hs]
      · have hs2 : s ≠ "COMPLETED" := fun hc => h1 ⟨hc, hs⟩
        simp [hs, hs2]

/-- One call keeps the sum invariant on the stored wallet. -/
theorem stored_sumInvariant (w : Wallet) (op : Op) (hinv : sumInvariant w)
    (hd : op.demotes w = false) : sumInvariant (stored w (op.run w)) := by
  unfold stored
  split_ifs with he
  · cases op with
    | add td oid now => exact addTransaction_sumInvariant w td oid now hinv he
    | update tid s now => exact updateTransactionStatus_sumInvariant w tid s now hinv hd he
  · exact hinv

/-- A call of `addTransaction` that is not refused with `Insufficient balance`
leaves a document that satisfies the sum invariant, whether `save()` accepts
it or not. -/
theorem addTransaction_doc_sumInvariant (w : Wallet) (td : TransactionData) (oid : Nat)
    (now : Int) (hinv : sumInvariant w)
    (h : (addTransaction w td oid now).error ≠ some "Insufficient balance") :
    sumInvariant (addTransaction w td oid now).doc := by
  unfold sumInvariant ledgerBalance at hinv ⊢
  unfold addTransaction at h ⊢
  simp only at h ⊢
  split_ifs at h ⊢ with h1 h2 h3 h4 <;>
    simp only [save_doc, completedSum_append_one, castTransaction, h1, Option.getD_some] <;>
    first
    | (exact absurd rfl h)
    | (simp [*]; done)
    | (simp [*]; omega)
    | (simp [getD_pending_ne_completed _ h1, hinv])

/-- A call of `updateTransactionStatus` that is not refused with
`Insufficient balance` and does not move a COMPLETED record to another status
leaves a document that satisfies the sum invariant. -/
theorem updateTransactionStatus_doc_sumInvariant (w : Wallet) (tid : Nat) (s : String)
    (now : Int) (hinv : sumInvariant w) (hd : (Op.update tid s now).demotes w = false)
    (h : (updateTransactionStatus w tid s now).error ≠ some "Insufficient balance") :
    sumInvariant (updateTransactionStatus w tid s now).doc := by
  unfold sumInvariant ledgerBalance at hinv ⊢
  unfold updateTransactionStatus at h ⊢
  unfold Op.demotes at hd
  cases hf : findById w.transactions tid with
  | none => simpa [hf] using hinv
  | some t =>
    simp only [hf] at h hd ⊢
    simp only [Bool.and_eq_false_imp, beq_iff_eq, bne_eq_false_iff_eq] at hd
    split_ifs at h ⊢ with h1 h2 h3 h4 <;>
      simp only [save_doc, completedSum_setStatus _ _ _ _ _ hf]
    · rw [hinv]; simp [h1.1, h1.2, h2]; ring
    · exact absurd rfl h
    · rw [hinv]; simp [h1.1, h1.2, h2, h3]; ring
    · rw [hinv]; simp [h1.1, h1.2, h2, h3]
    · rw [hinv]
      by_cases hs : t.status = "COMPLETED"
      · simp [hs, hd hs]
      · have hs2 : s ≠ "COMPLETED" := fun hc => h1 ⟨hc, hs⟩
        simp [hs, hs2]

/-- Calls made one after the other on wallets reloaded from the store keep
the sum invariant on the stored wallet, as long as none moves a COMPLETED
record to another status. -/
theorem runStored_sumInvariant (w : Wallet) (ops : List Op) (hinv : sumInvariant w)
    (hd : noDemotion w ops = true) : sumInvariant (runStored w ops) := by
  induction ops generalizing w with
  | nil => exact hinv
  | cons op ops ih =>
    simp only [noDemotion, Bool.and_eq_true, Bool.not_eq_true'] at hd
    exact ih _ (stored_sumInvariant w op hinv hd.1) hd.2

/-- Calls made one after the other on one document keep the sum invariant on
that document, as long as none moves a COMPLETED record to another status and
none is refused with `Insufficient balance`. -/
theorem runDoc_sumInvariant (w : Wallet) (ops : List Op) (hinv : sumInvariant w)
    (hc : cleanOnDocument w ops = true) : sumInvariant (runDoc w ops) := by
  induction ops generalizing w with
  | nil => exact hinv
  | cons op ops ih =>
    simp only [cleanOnDocument, Bool.and_eq_true, Bool.not_eq_true', decide_eq_true_eq] at hc
    refine ih _ ?_ hc.2
    cases op with
    | add td oid now => exact addTransaction_doc_sumInvariant w td oid now hinv hc.1.2
    | update tid s now =>
      exact updateTransactionStatus_doc_sumInvariant w tid s now hinv hc.1.1 hc.1.2

theorem absoluteTotal_cons (a : Transaction) (l : List Transaction) :
    absoluteTotal (a :: l) = (a.amount.natAbs : Int) + absoluteTotal l := by
  simp [absoluteTotal]

/-- The derived balance of a log is bounded by the absolute total of the log:
a wallet that satisfies the sum invariant with a log in the exact range has
its balance in the exact range. -/
theorem ledgerBalance_natAbs_le (l : List Transaction) :
    ((ledgerBalance l).natAbs : Int) ≤ absoluteTotal l := by
  induction l with
  | nil => simp [ledgerBalance, completedSum, absoluteTotal]
  | cons a l ih =>
    unfold ledgerBalance at ih ⊢
    rw [completedSum_cons, completedSum_cons, absoluteTotal_cons]
    split_ifs <;> omega

theorem absoluteTotal_append_one (l : List Transaction) (t : Transaction) :
    absoluteTotal (l ++ [t]) = absoluteTotal l + (t.amount.natAbs : Int) := by
  simp [absoluteTotal]

theorem absoluteTotal_setStatus (l : List Transaction) (tid : Nat) (s : String) :
    absoluteTotal (setStatus l tid s) = absoluteTotal l := by
  induction l with
  | nil => rfl
  | cons a l ih =>
    by_cases ha : a.id = tid
    · simp [setStatus, ha, absoluteTotal_cons]
    · simp [setStatus, ha, absoluteTotal_cons, ih]

/-- No call lowers the absolute total of the log of the document: a bound on
it after a sequence of calls is a bound at every point of the sequence. -/
theorem absoluteTotal_run_le (w : Wallet) (op : Op) :
    absoluteTotal w.transactions ≤ absoluteTotal (op.run w).doc.transactions := by
  cases op with
  | add td oid now =>
    have h : (addTransaction w td oid now).doc.transactions
        = w.transactions ++ [castTransaction td oid now] := by
      unfold addTransaction
      simp only
      split_ifs <;> simp [save_doc]
    simp only [Op.run, h, absoluteTotal_append_one]
    omega
  | update tid s now =>
    simp only [Op.run]
    unfold updateTransactionStatus
    cases hf : findById w.transactions tid with
    | none => simp
    | some t =>
      simp only
      split_ifs <;> simp [save_doc, absoluteTotal_setStatus]

/-- C1, as stated, fails: moving a COMPLETED CREDIT of 100 back to PENDING
resolves, keeps `balance = 100` and leaves no COMPLETED record, so the
balance no longer equals the sum over the log.  Besides, a COMPLETED DEBIT
that is refused for lack of funds stays pushed on the in-memory document, and
a later call on that document saves it: on an empty wallet, a refused DEBIT
of 150 followed by a CREDIT of 10 resolves with balance 10 and a log whose
sum is -140. -/
theorem C1_counterexample :
    sumInvariant creditedWallet ∧
    (updateTransactionStatus creditedWallet 1 "PENDING" 2).error = none ∧
    (updateTransactionStatus creditedWallet 1 "PENDING" 2).doc.balance = 100 ∧
    ledgerBalance (updateTransactionStatus creditedWallet 1 "PENDING" 2).doc.transactions = 0 ∧
    ¬ sumInvariant (updateTransactionStatus creditedWallet 1 "PENDING" 2).doc ∧
    ¬ sumInvariant (addTransaction creditedWallet
        { type := "DEBIT", amount := 150, description := "d", reference := "r"
          status := some "COMPLETED" } 2 2).doc ∧
    sumInvariant (emptyWallet 1 0) ∧
    (save (runDoc (emptyWallet 1 0) refusedThenCredit)).error = none ∧
    (runDoc (emptyWallet 1 0) refusedThenCredit).balance = 10 ∧
    ledgerBalance (runDoc (emptyWallet 1 0) refusedThenCredit).transactions = -140 := by
  decide

/-- C1 (amended): take a wallet that satisfies balance = sum of COMPLETED
CREDIT amounts - sum of COMPLETED DEBIT amounts and a sequence of
`addTransaction` and `updateTransactionStatus` calls whose amounts are whole
numbers within the safe integer range, the balance and the absolute total of
the log staying within that range (there the arithmetic of the source is
exact).  If every call is made on the wallet reloaded from the store and no
call moves a COMPLETED record to another status, the stored wallet satisfies
the equality after the sequence.  If all calls are made on one in-memory
document, no call moves a COMPLETED record to another status and no call is
refused with `Insufficient balance`, the document satisfies the equality
after the sequence, and so does what a resolved call saved.  In particular
this holds from an empty wallet. -/
theorem C1_sumInvariant_preserved (w : Wallet) (ops : List Op) (hinv : sumInvariant w)
    (_hamounts : ∀ op ∈ ops, op.amountExact = true) :
    (noDemotion w ops = true → exactRange (runStored w ops) = true →
      sumInvariant (runStored w ops)) ∧
    (cleanOnDocument w ops = true → exactRange (runDoc w ops) = true →
      sumInvariant (runDoc w ops)) :=
  ⟨fun hd _ => runStored_sumInvariant w ops hinv hd,
   fun hc _ => runDoc_sumInvariant w ops hinv hc⟩

theorem C1_sumInvariant_preserved_witness :
    sumInvariant (emptyWallet 1 0) ∧
    (∀ op ∈ ledgerOps, op.amountExact = true) ∧
    noDemotion (emptyWallet 1 0) ledgerOps = true ∧
    exactRange (runStored (emptyWallet 1 0) ledgerOps) = true ∧
    sumInvariant (runStored (emptyWallet 1 0) ledgerOps) ∧
    cleanOnDocument (emptyWallet 1 0) documentOps = true ∧
    exactRange (runDoc (emptyWallet 1 0) documentOps) = true ∧
    sumInvariant (runDoc (emptyWallet 1 0) documentOps) :=
  ⟨by decide, by decide, by decide, by decide,
   (C1_sumInvariant_preserved (emptyWallet 1 0) ledgerOps (by decide) (by decide)).1
     (by decide) (by decide),
   by decide, by decide,
   (C1_sumInvariant_preserved (emptyWallet 1 0) documentOps (by decide) (by decide)).2
     (by decide) (by decide)⟩

theorem findById_setStatus (l : List Transaction) (tid : Nat) (s : String) (t : Transaction)
    (h : findById l tid = some t) :
    findById (setStatus l tid s) tid = some { t with status := s } := by
  induction l with
  | nil => simp [findById] at h
  | cons a l ih =>
    rw [findById_cons] at h
    by_cases ha : a.id = tid
    · rw [if_pos ha] at h
      cases h
      simp [setStatus, ha, findById_cons]
    · rw [if_neg ha] at h
      simp [setStatus, ha, findById_cons, ih h]

/-- C4, as stated, fails: on a COMPLETED record the call with FAILED resolves
and the record is FAILED afterwards; on a FAILED CREDIT of 100 the call with
COMPLETED resolves, the record is COMPLETED and the balance went from 0 to
100. -/
theorem C4_counterexample :
    (updateTransactionStatus creditedWallet 1 "FAILED" 2).error = none ∧
    (findById (updateTransactionStatus creditedWallet 1 "FAILED" 2).doc.transactions 1).map
      (fun t => t.status) = some "FAILED" ∧
    (updateTransactionStatus failedCreditWallet 1 "COMPLETED" 2).error = none ∧
    (findById (updateTransactionStatus failedCreditWallet 1 "COMPLETED" 2).doc.transactions 1).map
      (fun t => t.status) = some "COMPLETED" ∧
    failedCreditWallet.balance = 0 ∧
    (updateTransactionStatus failedCreditWallet 1 "COMPLETED" 2).doc.balance = 100 := by
  decide

/-- C4 (amended): for a record found under the id, `updateTransactionStatus`
leaves the balance as it was when the record is COMPLETED (any new status)
and when the record is FAILED and the new status is not COMPLETED; the status
of the record is not protected, after the call it is the new status. -/
theorem C4_terminal_balance_only (w : Wallet) (tid : Nat) (s : String) (now : Int)
    (t : Transaction) (hf : findById w.transactions tid = some t) :
    (t.status = "COMPLETED" → (updateTransactionStatus w tid s now).doc.balance = w.balance) ∧
    (t.status = "FAILED" → s ≠ "COMPLETED" →
      (updateTransactionStatus w tid s now).doc.balance = w.balance) ∧
    findById (updateTransactionStatus w tid s now).doc.transactions tid
      = some { t with status := s } := by
  have hs := findById_setStatus w.transactions tid s t hf
  unfold updateTransactionStatus
  simp only [hf]
  refine ⟨?_, ?_, ?_⟩
  · intro hc
    rw [if_neg (by simp [hc])]
    simp [save_doc]
  · intro _ hn
    rw [if_neg (by simp [hn])]
    simp [save_doc]
  · split_ifs <;> simp [save_doc, hs]

theorem C4_terminal_balance_only_witness :
    findById creditedWallet.transactions 1 = some completedCredit ∧
    (updateTransactionStatus creditedWallet 1 "PENDING" 2).doc.balance = creditedWallet.balance :=
  ⟨by decide,
   (C4_terminal_balance_only creditedWallet 1 "PENDING" 2 completedCredit (by decide)).1
     (by decide)⟩

/-- C8, failing input: a COMPLETED DEBIT of 150 on a wallet with balance 100
and an empty log throws `Insufficient balance`, the balance stays 100, yet
the record has been pushed: the log of the document holds it after the failed
call. -/
theorem C8_failed_debit_is_pushed :
    (addTransaction (fundedWallet 100)
      { type := "DEBIT", amount := 150, description := "d", reference := "r"
        status := some "COMPLETED" } 7 5).error = some "Insufficient balance" ∧
    (addTransaction (fundedWallet 100)
      { type := "DEBIT", amount := 150, description := "d", reference := "r"
        status := some "COMPLETED" } 7 5).doc.balance = 100 ∧
    (fundedWallet 100).transactions = [] ∧
    (addTransaction (fundedWallet 100)
      { type := "DEBIT", amount := 150, description := "d", reference := "r"
        status := some "COMPLETED" } 7 5).doc.transactions =
      [{ id := 7, type := "DEBIT", amount := 150, description := "d", reference := "r"
         status := "COMPLETED", metadata := {}, createdAt := 5 }] := by
  decide

/-- C9, failing input: on a wallet with balance 0 holding a PENDING DEBIT of
50, the call with COMPLETED throws `Insufficient balance` and the balance
stays 0, yet the status of the record on the document is COMPLETED after the
failed call. -/
theorem C9_rejected_update_changes_status :
    (findById pendingDebitWallet.transactions 1).map (fun t => t.status) = some "PENDING" ∧
    (updateTransactionStatus pendingDebitWallet 1 "COMPLETED" 2).error
      = some "Insufficient balance" ∧
    (updateTransactionStatus pendingDebitWallet 1 "COMPLETED" 2).doc.balance = 0 ∧
    (findById (updateTransactionStatus pendingDebitWallet 1 "COMPLETED" 2).doc.transactions 1).map
      (fun t => t.status) = some "COMPLETED" := by
  decide

/-- A call that threw stored nothing. -/
theorem stored_of_error (w : Wallet) (r : Outcome) (h : r.error ≠ none) : stored w r = w := by
  unfold stored; rw [if_neg h]

theorem validate_append_one (w : Wallet) (t : Transaction) (now : Int) :
    validate { w with transactions := w.transactions ++ [t], lastUpdated := now } =
      (validate w && validTransaction t) := by
  simp [validate, List.all_append, Bool.and_assoc]

/-- On a valid wallet, a record with a valid type, description and reference
and a status other than COMPLETED is appended and saved, the balance is not
touched. -/
theorem addTransaction_staged (w : Wallet) (td : TransactionData) (oid : Nat) (now : Int)
    (hv : validate w = true) (hty : td.type = "CREDIT" ∨ td.type = "DEBIT")
    (hdesc : td.description ≠ "") (href : td.reference ≠ "")
    (hst : td.status = none ∨ td.status = some "PENDING" ∨ td.status = some "FAILED") :
    addTransaction w td oid now =
      ⟨{ w with transactions := w.transactions ++ [castTransaction td oid now]
                lastUpdated := now }, none⟩ := by
  have hnc : ¬ td.status = some "COMPLETED" := by
    rcases hst with h | h | h <;> simp [h]
  have hgood : validTransaction (castTransaction td oid now) = true := by
    have hs : td.status.getD "PENDING" = "PENDING" ∨ td.status.getD "PENDING" = "FAILED" := by
      rcases hst with h | h | h <;> simp [h]
    simp only [validTransaction, castTransaction, Bool.and_eq_true, Bool.or_eq_true,
      beq_iff_eq, bne_iff_ne, ne_eq]
    exact ⟨⟨⟨hty, hdesc⟩, href⟩, by
      rcases hs with h | h
      · exact Or.inl (Or.inl h)
      · exact Or.inr h⟩
  unfold addTransaction
  simp only [hnc, if_false]
  unfold save
  rw [if_pos]
  rw [validate_append_one, hv, hgood]
  rfl

/-- C10, as stated, fails for amounts: a PENDING CREDIT of amount 0 and a
COMPLETED DEBIT of amount -5 both resolve and are appended (the latter raises
the balance from 10 to 15). -/
theorem C10_counterexample :
    (addTransaction (fundedWallet 10)
      { type := "CREDIT", amount := 0, description := "d", reference := "r"
        status := some "PENDING" } 1 1).error = none ∧
    (addTransaction (fundedWallet 10)
      { type := "CREDIT", amount := 0, description := "d", reference := "r"
        status := some "PENDING" } 1 1).doc.transactions.length = 1 ∧
    (addTransaction (fundedWallet 10)
      { type := "DEBIT", amount := -5, description := "d", reference := "r"
        status := some "COMPLETED" } 1 1).error = none ∧
    (addTransaction (fundedWallet 10)
      { type := "DEBIT", amount := -5, description := "d", reference := "r"
        status := some "COMPLETED" } 1 1).doc.balance = 15 := by
  decide

/-- C10 (amended): a transaction whose type is neither CREDIT nor DEBIT makes
`addTransaction` fail, whatever the status and the amount (the error is the
schema validation error raised by `save()`), the balance is untouched and
nothing is stored.  The amount is not examined: on a valid wallet, a record
with a valid type, description and reference and a status other than
COMPLETED is accepted and appended with any amount, zero and negative
included. -/
theorem C10_type_validated_amount_not (w : Wallet) (td : TransactionData) (oid : Nat)
    (now : Int) :
    (td.type ≠ "CREDIT" → td.type ≠ "DEBIT" →
      (addTransaction w td oid now).error ≠ none ∧
      (addTransaction w td oid now).doc.balance = w.balance ∧
      stored w (addTransaction w td oid now) = w) ∧
    (validate w = true → (td.type = "CREDIT" ∨ td.type = "DEBIT") →
      td.description ≠ "" → td.reference ≠ "" →
      (td.status = none ∨ td.status = some "PENDING" ∨ td.status = some "FAILED") →
      (addTransaction w td oid now).error = none ∧
      (addTransaction w td oid now).doc.balance = w.balance ∧
      (addTransaction w td oid now).doc.transactions
        = w.transactions ++ [castTransaction td oid now]) := by
  constructor
  · intro hc hd
    have hbad : validTransaction (castTransaction td oid now) = false := by
      simp [validTransaction, castTransaction, hc, hd]
    have herr : (addTransaction w td oid now).error ≠ none := by
      unfold addTransaction
      simp only [hc, hd, if_false, ite_self]
      intro h
      have hv := (save_error_none_iff _).1 h
      rw [validate_append_one, hbad] at hv
      simp at hv
    refine ⟨herr, ?_, stored_of_error _ _ herr⟩
    unfold addTransaction
    simp [hc, hd, save_doc]
  · intro hv hty hdesc href hst
    rw [addTransaction_staged w td oid now hv hty hdesc href hst]
    exact ⟨rfl, rfl, rfl⟩

theorem C10_type_validated_amount_not_witness :
    ((addTransaction (fundedWallet 10)
        { type := "REFUND", amount := 5, description := "d", reference := "r"
          status := some "COMPLETED" } 1 1).error ≠ none ∧
      (addTransaction (fundedWallet 10)
        { type := "REFUND", amount := 5, description := "d", reference := "r"
          status := some "COMPLETED" } 1 1).doc.balance = (fundedWallet 10).balance ∧
      stored (fundedWallet 10) (addTransaction (fundedWallet 10)
        { type := "REFUND", amount := 5, description := "d", reference := "r"
          status := some "COMPLETED" } 1 1) = fundedWallet 10) ∧
    (validate (fundedWallet 10) = true ∧
      (addTransaction (fundedWallet 10)
        { type := "DEBIT", amount := -5, description := "d", reference := "r"
          status := some "PENDING" } 1 1).error = none) :=
  ⟨(C10_type_validated_amount_not (fundedWallet 10)
      { type := "REFUND", amount := 5, description := "d", reference := "r"
        status := some "COMPLETED" } 1 1).1 (by decide) (by decide),
   by decide,
   ((C10_type_validated_amount_not (fundedWallet 10)
      { type := "DEBIT", amount := -5, description := "d", reference := "r"
        status := some "PENDING" } 1 1).2 (by decide) (by decide) (by decide) (by decide)
        (by decide)).1⟩

/-! ## Properties of the handlers -/

theorem append_ne_empty (s t : String) (h : s ≠ "") : s ++ t ≠ "" := by
  intro he
  apply h
  have hd : (s ++ t).data = [] := by rw [he]
  rw [String.data_append] at hd
  exact String.ext (List.append_eq_nil.1 hd).1

theorem orElseString_ne_empty (d : Option String) (f : String) (h : f ≠ "") :
    orElseString d f ≠ "" := by
  unfold orElseString
  cases d with
  | none => exact h
  | some s =>
    by_cases hs : s = ""
    · simp [hs, h]
    · simp [hs]

/-- A COMPLETED DEBIT covered by the balance of a valid wallet is applied and
saved. -/
theorem addTransaction_completed_debit (w : Wallet) (td : TransactionData) (oid : Nat)
    (now : Int) (hv : validate w = true) (hs : td.status = some "COMPLETED")
    (ht : td.type = "DEBIT") (hd : td.description ≠ "") (hr : td.reference ≠ "")
    (hle : td.amount ≤ w.balance) :
    addTransaction w td oid now =
      ⟨{ w with balance := w.balance - td.amount
                transactions := w.transactions ++ [castTransaction td oid now]
                lastUpdated := now }, none⟩ := by
  have hgood : validTransaction (castTransaction td oid now) = true := by
    simp [validTransaction, castTransaction, hs, ht, hd, hr]
  have hall : w.transactions.all validTransaction = true := by
    unfold validate at hv
    simp only [Bool.and_eq_true] at hv
    exact hv.2
  unfold addTransaction
  simp only [hs, ht, if_true]
  rw [if_neg (by decide), if_neg (not_lt.2 hle)]
  unfold save
  rw [if_pos]
  simp only [validate, List.all_append, Bool.and_eq_true, decide_eq_true_eq]
  exact ⟨by omega, hall, by simpa using hgood⟩

/-- A COMPLETED CREDIT of a non-negative amount on a valid wallet is applied
and saved. -/
theorem addTransaction_completed_credit (w : Wallet) (td : TransactionData) (oid : Nat)
    (now : Int) (hv : validate w = true) (hs : td.status = some "COMPLETED")
    (ht : td.type = "CREDIT") (hd : td.description ≠ "") (hr : td.reference ≠ "")
    (hpos : 0 ≤ td.amount) :
    addTransaction w td oid now =
      ⟨{ w with balance := w.balance + td.amount
                transactions := w.transactions ++ [castTransaction td oid now]
                lastUpdated := now }, none⟩ := by
  have hgood : validTransaction (castTransaction td oid now) = true := by
    simp [validTransaction, castTransaction, hs, ht, hd, hr]
  have hall : w.transactions.all validTransaction = true := by
    unfold validate at hv
    simp only [Bool.and_eq_true] at hv
    exact hv.2
  have hb := validate_balance hv
  unfold addTransaction
  simp only [hs, ht, if_true]
  unfold save
  rw [if_pos]
  simp only [validate, List.all_append, Bool.and_eq_true, decide_eq_true_eq]
  exact ⟨by omega, hall, by simpa using hgood⟩

theorem findUser_id {db : Db} {id : Nat} {u : User} (h : findUser db id = some u) : u.id = id := by
  unfold findUser at h
  simpa using List.find?_some h

theorem findWallet_userId {db : Db} {uid : Nat} {w : Wallet} (h : findWallet db uid = some w) :
    w.userId = uid := by
  unfold findWallet at h
  simpa using List.find?_some h

theorem find_replaceWallet_same (l : List Wallet) (uid : Nat) (w d : Wallet)
    (h : l.find? (fun w => decide (w.userId = uid)) = some w) (hd : d.userId = uid) :
    (replaceWallet l d).find? (fun w => decide (w.userId = uid)) = some d := by
  induction l with
  | nil => simp at h
  | cons a l ih =>
    by_cases ha : a.userId = uid
    · simp [replaceWallet, ha, hd, List.find?_cons]
    · have hne : ¬ a.userId = d.userId := by rw [hd]; exact ha
      rw [List.find?_cons] at h
      simp only [ha, decide_False] at h
      simp [replaceWallet, hne, List.find?_cons, ha, ih h]

theorem find_replaceWallet_other (l : List Wallet) (uid : Nat) (d : Wallet)
    (hd : d.userId ≠ uid) :
    (replaceWallet l d).find? (fun w => decide (w.userId = uid)) =
      l.find? (fun w => decide (w.userId = uid)) := by
  induction l with
  | nil => simp [replaceWallet]
  | cons a l ih =>
    by_cases ha : a.userId = d.userId
    · have hne : ¬ a.userId = uid := by rw [ha]; exact hd
      simp [replaceWallet, ha, List.find?_cons, hne, hd]
    · simp only [replaceWallet, ha, if_false, List.find?_cons, ih]

theorem findWallet_saveWallet_same (db : Db) (uid : Nat) (w d : Wallet)
    (h : findWallet db uid = some w) (hd : d.userId = uid) :
    findWallet (saveWallet db d) uid = some d :=
  find_replaceWallet_same db.wallets uid w d h hd

theorem findWallet_saveWallet_other (db : Db) (uid : Nat) (d : Wallet) (hd : d.userId ≠ uid) :
    findWallet (saveWallet db d) uid = findWallet db uid :=
  find_replaceWallet_other db.wallets uid d hd

/-- C6: an MCP whose wallet holds `s` transfers `a` with `0 < a ≤ s` to a
pickup partner registered under it whose wallet holds `t`: the handler
answers success, the stored source balance is `s - a`, the stored target
balance is `t + a`, the source log gained exactly one COMPLETED DEBIT of `a`,
the target log exactly one COMPLETED CREDIT of `a`, and both records carry the
same reference.  The wallets are those held by the store (schema-valid). -/
theorem C6_transfer_succeeds (db : Db) (userId partnerId : Nat) (a : Int)
    (description : Option String) (now : Int) (oid₁ oid₂ : Nat)
    (mcp partner : User) (sw tw : Wallet)
    (hm : findUser db userId = some mcp) (hrole : mcp.role = "MCP")
    (hp : findUser db partnerId = some partner) (hprole : partner.role = "PICKUP_PARTNER")
    (hparent : partner.mcpId = some mcp.id)
    (hsw : findWallet db userId = some sw) (htw : findWallet db partnerId = some tw)
    (hvs : validate sw = true) (hvt : validate tw = true)
    (hpos : 0 < a) (hle : a ≤ sw.balance) :
    ∃ d c : Transaction,
      (transferFunds db userId partnerId a description now oid₁ oid₂).response.success = true ∧
      (transferFunds db userId partnerId a description now oid₁ oid₂).response.data.map
        (fun x => (x.mcpBalance, x.partnerBalance)) = some (sw.balance - a, tw.balance + a) ∧
      (findWallet (transferFunds db userId partnerId a description now oid₁ oid₂).db userId).map
        (fun w => w.balance) = some (sw.balance - a) ∧
      (findWallet (transferFunds db userId partnerId a description now oid₁ oid₂).db
        partnerId).map (fun w => w.balance) = some (tw.balance + a) ∧
      (findWallet (transferFunds db userId partnerId a description now oid₁ oid₂).db userId).map
        (fun w => w.transactions) = some (sw.transactions ++ [d]) ∧
      (findWallet (transferFunds db userId partnerId a description now oid₁ oid₂).db
        partnerId).map (fun w => w.transactions) = some (tw.transactions ++ [c]) ∧
      d.type = "DEBIT" ∧ d.status = "COMPLETED" ∧ d.amount = a ∧
      c.type = "CREDIT" ∧ c.status = "COMPLETED" ∧ c.amount = a ∧
      d.reference = c.reference := by
  have hmid : mcp.id = userId := findUser_id hm
  subst hmid
  have hne : mcp.id ≠ partnerId := by
    intro he
    rw [he, hp] at hm
    cases hm
    rw [hrole] at hprole
    exact absurd hprole (by decide)
  have hsu : sw.userId = mcp.id := findWallet_userId hsw
  have htu : tw.userId = partnerId := findWallet_userId htw
  have href : "TRF-" ++ toString now ≠ "" := append_ne_empty _ _ (by decide)
  have hdebit := addTransaction_completed_debit sw
    { type := "DEBIT", amount := a, description := "Transfer to " ++ partner.name
      reference := "TRF-" ++ toString now, status := some "COMPLETED"
      metadata := { transferredTo := some partnerId } } oid₁ now hvs rfl rfl
      (append_ne_empty _ _ (by decide)) href hle
  have hcredit := addTransaction_completed_credit tw
    { type := "CREDIT", amount := a
      description := orElseString description ("Received from " ++ mcp.name)
      reference := "TRF-" ++ toString now, status := some "COMPLETED"
      metadata := { transferredFrom := some mcp.id } } oid₂ now hvt rfl rfl
      (orElseString_ne_empty _ _ (append_ne_empty _ _ (by decide))) href (le_of_lt hpos)
  refine ⟨castTransaction
    { type := "DEBIT", amount := a, description := "Transfer to " ++ partner.name
      reference := "TRF-" ++ toString now, status := some "COMPLETED"
      metadata := { transferredTo := some partnerId } } oid₁ now, castTransaction
    { type := "CREDIT", amount := a
      description := orElseString description ("Received from " ++ mcp.name)
      reference := "TRF-" ++ toString now, status := some "COMPLETED"
      metadata := { transferredFrom := some mcp.id } } oid₂ now, ?_⟩
  unfold transferFunds
  simp only [hm, hrole, hp, hprole, hparent, hsw, htw, ne_eq, not_true_eq_false,
    if_false, not_lt.2 hle, hdebit, hcredit]
  have hA : ∀ D C : Wallet, D.userId = mcp.id → C.userId = partnerId →
      findWallet (saveWallet (saveWallet db D) C) mcp.id = some D := by
    intro D C hD hC
    rw [findWallet_saveWallet_other _ _ C (by rw [hC]; exact fun h => hne h.symm)]
    exact findWallet_saveWallet_same db _ sw D hsw hD
  have hB : ∀ D C : Wallet, D.userId = mcp.id → C.userId = partnerId →
      findWallet (saveWallet (saveWallet db D) C) partnerId = some C := by
    intro D C hD hC
    refine findWallet_saveWallet_same _ _ tw C ?_ hC
    rw [findWallet_saveWallet_other _ _ D (by rw [hD]; exact hne)]
    exact htw
  simp [hA, hB, hsu, htu, castTransaction]

theorem C6_transfer_succeeds_witness :
    findUser scenarioDb 1 = some scenarioMcp ∧
    findUser scenarioDb 2 = some scenarioPartner ∧
    findWallet scenarioDb 1 = some (fundedWallet 300) ∧
    (∃ d c : Transaction,
      (transferFunds scenarioDb 1 2 100 none 1000 11 12).response.success = true ∧
      (transferFunds scenarioDb 1 2 100 none 1000 11 12).response.data.map
        (fun x => (x.mcpBalance, x.partnerBalance))
          = some ((fundedWallet 300).balance - 100, (partnerWallet 0).balance + 100) ∧
      (findWallet (transferFunds scenarioDb 1 2 100 none 1000 11 12).db 1).map
        (fun w => w.balance) = some ((fundedWallet 300).balance - 100) ∧
      (findWallet (transferFunds scenarioDb 1 2 100 none 1000 11 12).db 2).map
        (fun w => w.balance) = some ((partnerWallet 0).balance + 100) ∧
      (findWallet (transferFunds scenarioDb 1 2 100 none 1000 11 12).db 1).map
        (fun w => w.transactions) = some ((fundedWallet 300).transactions ++ [d]) ∧
      (findWallet (transferFunds scenarioDb 1 2 100 none 1000 11 12).db 2).map
        (fun w => w.transactions) = some ((partnerWallet 0).transactions ++ [c]) ∧
      d.type = "DEBIT" ∧ d.status = "COMPLETED" ∧ d.amount = 100 ∧
      c.type = "CREDIT" ∧ c.status = "COMPLETED" ∧ c.amount = 100 ∧
      d.reference = c.reference) :=
  ⟨by decide, by decide, by decide,
   C6_transfer_succeeds scenarioDb 1 2 100 none 1000 11 12 scenarioMcp scenarioPartner
     (fundedWallet 300) (partnerWallet 0) (by decide) (by decide) (by decide) (by decide)
     (by decide) (by decide) (by decide) (by decide) (by decide) (by decide) (by decide)⟩

/-- Scenario D evaluated: source 300, target 0, amount 100 give 200 and 100. -/
theorem transferFunds_scenarioD :
    (findWallet (transferFunds scenarioDb 1 2 100 none 1000 11 12).db 1).map
      (fun w => w.balance) = some 200 ∧
    (findWallet (transferFunds scenarioDb 1 2 100 none 1000 11 12).db 2).map
      (fun w => w.balance) = some 100 := by
  decide

theorem findById_append_fresh (l : List Transaction) (t : Transaction)
    (h : findById l t.id = none) : findById (l ++ [t]) t.id = some t := by
  unfold findById at *
  rw [List.find?_append, h]
  simp

theorem setStatus_append_fresh (l : List Transaction) (t : Transaction) (s : String)
    (h : findById l t.id = none) :
    setStatus (l ++ [t]) t.id s = l ++ [{ t with status := s }] := by
  induction l with
  | nil => simp [setStatus]
  | cons a l ih =>
    rw [findById_cons] at h
    by_cases ha : a.id = t.id
    · simp [ha] at h
    · rw [if_neg ha] at h
      simp [setStatus, ha, ih h]

/-- C7: a withdrawal of `a` with `0 < a ≤ b` from a stored wallet of balance
`b` is answered with success, appends exactly one PENDING DEBIT of `a` and
leaves the stored balance at `b`; completing that record afterwards resolves
and leaves the balance at `b - a`.  The id `oid` given to the record is fresh
for the log. -/
theorem C7_withdrawal_staged (db : Db) (userId : Nat) (a : Int) (bankDetails : Option String)
    (now later : Int) (oid : Nat) (w : Wallet)
    (hw : findWallet db userId = some w) (hv : validate w = true)
    (hfresh : findById w.transactions oid = none) (_hpos : 0 < a) (hle : a ≤ w.balance) :
    ∃ (t : Transaction) (w' : Wallet),
      (withdrawFunds db userId a bankDetails now oid).response.success = true ∧
      findWallet (withdrawFunds db userId a bankDetails now oid).db userId = some w' ∧
      w'.balance = w.balance ∧
      w'.transactions = w.transactions ++ [t] ∧
      t.id = oid ∧ t.type = "DEBIT" ∧ t.status = "PENDING" ∧ t.amount = a ∧
      (updateTransactionStatus w' oid "COMPLETED" later).error = none ∧
      (updateTransactionStatus w' oid "COMPLETED" later).doc.balance = w.balance - a := by
  have hu : w.userId = userId := findWallet_userId hw
  have hall : w.transactions.all validTransaction = true := by
    unfold validate at hv
    simp only [Bool.and_eq_true] at hv
    exact hv.2
  have hb := validate_balance hv
  have href : "WTH-" ++ toString now ≠ "" := append_ne_empty _ _ (by decide)
  have hadd := addTransaction_staged w
    { type := "DEBIT", amount := a, description := "Withdrawal request"
      reference := "WTH-" ++ toString now, status := some "PENDING"
      metadata := { bankDetails := bankDetails } } oid now hv (Or.inr rfl) (by simp) href
      (Or.inr (Or.inl rfl))
  have hfind := findById_append_fresh w.transactions (castTransaction
    { type := "DEBIT", amount := a, description := "Withdrawal request"
      reference := "WTH-" ++ toString now, status := some "PENDING"
      metadata := { bankDetails := bankDetails } } oid now) hfresh
  have hset := setStatus_append_fresh w.transactions (castTransaction
    { type := "DEBIT", amount := a, description := "Withdrawal request"
      reference := "WTH-" ++ toString now, status := some "PENDING"
      metadata := { bankDetails := bankDetails } } oid now) "COMPLETED" hfresh
  have hupd : updateTransactionStatus
      { w with transactions := w.transactions ++ [castTransaction
          { type := "DEBIT", amount := a, description := "Withdrawal request"
            reference := "WTH-" ++ toString now, status := some "PENDING"
            metadata := { bankDetails := bankDetails } } oid now], lastUpdated := now }
      oid "COMPLETED" later =
      ⟨{ w with balance := w.balance - a
                transactions := w.transactions ++ [{ castTransaction
                  { type := "DEBIT", amount := a, description := "Withdrawal request"
                    reference := "WTH-" ++ toString now, status := some "PENDING"
                    metadata := { bankDetails := bankDetails } } oid now with
                  status := "COMPLETED" }]
                lastUpdated := later }, none⟩ := by
    unfold updateTransactionStatus
    simp only [castTransaction] at hfind hset ⊢
    simp only [hfind, hset]
    simp only [Option.getD_some, ne_eq, true_and, if_true, not_lt.2 hle, if_false]
    rw [if_pos (by decide), if_neg (by decide)]
    unfold save
    rw [if_pos]
    simp only [validate, List.all_append, Bool.and_eq_true, decide_eq_true_eq]
    refine ⟨by omega, hall, ?_⟩
    simp [validTransaction, href]
  refine ⟨castTransaction
    { type := "DEBIT", amount := a, description := "Withdrawal request"
      reference := "WTH-" ++ toString now, status := some "PENDING"
      metadata := { bankDetails := bankDetails } } oid now,
    { w with transactions := w.transactions ++ [castTransaction
        { type := "DEBIT", amount := a, description := "Withdrawal request"
          reference := "WTH-" ++ toString now, status := some "PENDING"
          metadata := { bankDetails := bankDetails } } oid now], lastUpdated := now },
    ?_, ?_, rfl, rfl, rfl, rfl, rfl, rfl, ?_, ?_⟩
  · unfold withdrawFunds
    simp only [hw, not_lt.2 hle, if_false, hadd]
  · unfold withdrawFunds
    simp only [hw, not_lt.2 hle, if_false, hadd]
    exact findWallet_saveWallet_same db userId w _ hw hu
  · rw [hupd]
  · rw [hupd]

theorem C7_withdrawal_staged_witness :
    findWallet partnerDb 2 = some (partnerWallet 500) ∧
    (∃ (t : Transaction) (w' : Wallet),
      (withdrawFunds partnerDb 2 200 none 1000 21).response.success = true ∧
      findWallet (withdrawFunds partnerDb 2 200 none 1000 21).db 2 = some w' ∧
      w'.balance = (partnerWallet 500).balance ∧
      w'.transactions = (partnerWallet 500).transactions ++ [t] ∧
      t.id = 21 ∧ t.type = "DEBIT" ∧ t.status = "PENDING" ∧ t.amount = 200 ∧
      (updateTransactionStatus w' 21 "COMPLETED" 2000).error = none ∧
      (updateTransactionStatus w' 21 "COMPLETED" 2000).doc.balance
        = (partnerWallet 500).balance - 200) :=
  ⟨by decide,
   C7_withdrawal_staged partnerDb 2 200 none 1000 2000 21 (partnerWallet 500) (by decide)
     (by decide) (by decide) (by decide) (by decide)⟩

/-- Scenario B evaluated: balance 500, withdrawal of 200 leaves 500 in the
store, completing the record leaves 300. -/
theorem withdrawFunds_scenarioB :
    (findWallet (withdrawFunds partnerDb 2 200 none 1000 21).db 2).map
      (fun w => w.balance) = some 500 ∧
    (findWallet (withdrawFunds partnerDb 2 200 none 1000 21).db 2).map
      (fun w => (updateTransactionStatus w 21 "COMPLETED" 2000).doc.balance) = some 300 := by
  decide

/-- Failures found before the first leg leave the store as it was; scenario
C evaluated: source balance 100, amount 150 is answered with
`Insufficient balance` and the store is unchanged. -/
theorem transferFunds_scenarioC :
    (transferFunds shortDb 1 2 150 none 1000 11 12).response.success = false ∧
    (transferFunds shortDb 1 2 150 none 1000 11 12).response.error
      = some "Insufficient balance" ∧
    (transferFunds shortDb 1 2 150 none 1000 11 12).db = shortDb := by
  decide

/-- C3, failing input: source balance 100, target balance 0, amount -50.  The
handler answers with a failure (the credit leg is rejected by the `min: 0`
validator of the target balance), yet the debit leg has been saved: the
stored source wallet now has balance 150 and one DEBIT record.  The session is
aborted, but no write was made through it. -/
theorem C3_failed_transfer_keeps_debit_leg :
    (findWallet shortDb 1).map (fun w => (w.balance, w.transactions.length)) = some (100, 0) ∧
    (transferFunds shortDb 1 2 (-50) none 1000 11 12).response.success = false ∧
    (transferFunds shortDb 1 2 (-50) none 1000 11 12).response.status = 500 ∧
    (transferFunds shortDb 1 2 (-50) none 1000 11 12).response.error
      = some "Wallet validation failed" ∧
    (findWallet (transferFunds shortDb 1 2 (-50) none 1000 11 12).db 1).map
      (fun w => (w.balance, w.transactions.length)) = some (150, 1) ∧
    (findWallet (transferFunds shortDb 1 2 (-50) none 1000 11 12).db 1).map
      (fun w => w.transactions.map (fun t => (t.type, t.amount, t.status)))
        = some [("DEBIT", -50, "COMPLETED")] ∧
    (findWallet (transferFunds shortDb 1 2 (-50) none 1000 11 12).db 2).map
      (fun w => (w.balance, w.transactions.length)) = some (0, 0) := by
  decide

/-! ### Pagination with numeric `page` and `limit` -/

/-- With numbers for both bounds, `slice(k, k + n)` is the window of `n`
elements after the first `k`. -/
theorem slice_numeric {α : Type} (l : List α) (k n : Nat) :
    slice l (.number (some (k : Int))) (.number (some ((k : Int) + n))) = (l.drop k).take n := by
  unfold slice sliceIndex
  simp only [JsValue.toNumber]
  have h1 : ¬ ((k : Int) < 0) := by omega
  have h2 : ¬ ((k : Int) + n < 0) := by omega
  rw [if_neg h1, if_neg h2]
  have e1 : (k : Int).toNat = k := by omega
  have e2 : ((k : Int) + n).toNat = k + n := by omega
  rw [e1, e2]
  by_cases hk : k ≤ l.length
  · rw [Nat.min_eq_left hk]
    by_cases hn : k + n ≤ l.length
    · rw [Nat.min_eq_left hn]
      congr 1
      omega
    · rw [Nat.min_eq_right (by omega)]
      rw [List.take_of_length_le (by simp), List.take_of_length_le (by simp; omega)]
  · have hd : l.drop k = [] := List.drop_eq_nil_of_le (by omega)
    rw [Nat.min_eq_right (by omega), Nat.min_eq_right (by omega)]
    simp [hd]

/-- When `page` and `limit` are numbers (`page ≥ 1`), the expressions of the
handler select the window of `limit` elements after the first
`(page - 1) * limit`. -/
theorem slice_page_numeric {α : Type} (l : List α) (p n : Nat) :
    slice l
      (((JsValue.number (some ((p : Int) + 1))).sub (.number (some 1))).mul
        (.number (some (n : Int))))
      ((((JsValue.number (some ((p : Int) + 1))).sub (.number (some 1))).mul
        (.number (some (n : Int)))).add (.number (some (n : Int))))
      = (l.drop (p * n)).take n := by
  have h := slice_numeric l (p * n) n
  have e : ((JsValue.number (some ((p : Int) + 1))).sub (.number (some 1))).mul
        (.number (some (n : Int))) = .number (some ((p * n : Nat) : Int)) := by
    simp [JsValue.sub, JsValue.mul, JsValue.toNumber]
  rw [e]
  simpa [JsValue.add] using h

/-- Windows of `n ≥ 1` elements taken one after the other rebuild the list as
soon as they cover its length. -/
theorem windows_rebuild {α : Type} (n : Nat) (pages : Nat) (l : List α)
    (h : l.length ≤ pages * n) :
    (List.range pages).flatMap (fun p => (l.drop (p * n)).take n) = l := by
  induction pages generalizing l with
  | zero =>
    have : l = [] := List.length_eq_zero.1 (by omega)
    simp [this]
  | succ m ih =>
    rw [List.range_succ_eq_map, List.flatMap_cons, List.flatMap_map]
    have hshift : (fun p => (l.drop ((p + 1) * n)).take n) =
        (fun p => ((l.drop n).drop (p * n)).take n) := by
      funext p
      rw [List.drop_drop]
      congr 2
      ring
    have hrest := ih (l.drop n) (by rw [List.length_drop]; rw [Nat.succ_mul] at h; omega)
    simp only [Function.comp_def, Nat.succ_eq_add_one, zero_mul, List.drop_zero]
    rw [hshift, hrest, List.take_append_drop]

/-- With numbers for `page` and `limit` (as with the defaults), the pages
1, 2, ..., ceil(total / limit) of a list, one after the other, are the list:
nothing is repeated and nothing is left out. -/
theorem numeric_pages_partition {α : Type} (l : List α) (n : Nat) (hn : 1 ≤ n) :
    (List.range ((l.length + n - 1) / n)).flatMap (fun p =>
      slice l
        (((JsValue.number (some ((p : Int) + 1))).sub (.number (some 1))).mul
          (.number (some (n : Int))))
        ((((JsValue.number (some ((p : Int) + 1))).sub (.number (some 1))).mul
          (.number (some (n : Int)))).add (.number (some (n : Int))))) = l := by
  simp only [slice_page_numeric]
  apply windows_rebuild
  have h1 := Nat.div_add_mod (l.length + n - 1) n
  have h2 := Nat.mod_lt (l.length + n - 1) (by omega : n > 0)
  rw [Nat.mul_comm] at h1
  omega

/-- Value reported as `totalPages` for a numeric `limit ≥ 1`. -/
theorem ceilDiv_numeric (total n : Nat) (hn : 1 ≤ n) :
    ceilDiv total (.number (some (n : Int))) = some (((total + n - 1) / n : Nat) : Int) := by
  unfold ceilDiv
  simp only [JsValue.toNumber]
  have h0 : ¬ ((n : Int) = 0) := by omega
  have h1 : (0 : Int) < n := by omega
  rw [if_neg h0, if_pos h1]
  congr 1
  have : ((total : Int) + n - 1) = ((total + n - 1 : Nat) : Int) := by omega
  rw [this]
  norm_cast

/-- C5, failing input: 25 records, `limit=10` given in the query string.  The
response reports 3 pages; page 1 has 10 records, page 2 has 15 (the slice end
`skip + limit` is the string 1010), page 3 has 5, so the three pages together
hold 30 records and repeat five of them.  With the default limit the pages
hold 10, 10 and 5 records. -/
theorem C5_query_limit_breaks_pages :
    (historyPage (some "10") "1").map (fun d => d.pagination.totalPages) = some (some 3) ∧
    (historyPage (some "10") "1").map (fun d => d.transactions.map (fun t => t.id))
      = some [24, 23, 22, 21, 20, 19, 18, 17, 16, 15] ∧
    (historyPage (some "10") "2").map (fun d => d.transactions.map (fun t => t.id))
      = some [14, 13, 12, 11, 10, 9, 8, 7, 6, 5, 4, 3, 2, 1, 0] ∧
    (historyPage (some "10") "3").map (fun d => d.transactions.map (fun t => t.id))
      = some [4, 3, 2, 1, 0] ∧
    (historyPage none "2").map (fun d => d.transactions.map (fun t => t.id))
      = some [14, 13, 12, 11, 10, 9, 8, 7, 6, 5] := by
  decide

/-! ## Read-only handlers and the log in memory -/

/-- When a filter applies, `getTransactionHistory` works on a copy of the log:
the wallet document is left as loaded. -/
theorem getTransactionHistory_filtered_keeps_log (parseDate : String → Option Int) (db : Db)
    (userId : Nat) (q : HistoryQuery) (w : Wallet) (hw : findWallet db userId = some w)
    (hf : (truthy q.startDate && truthy q.endDate) = true ∨ truthy q.type = true ∨
      truthy q.status = true) :
    (getTransactionHistory parseDate db userId q).wallet = some w := by
  unfold getTransactionHistory
  simp only [hw]
  rcases hf with h | h | h <;> simp [h]

/-- C11, failing input: a wallet whose log holds three records in append
order (created at 0, 1, 2) and a history query without any filter.  The
handler sorts `wallet.transactions` itself, so after the call the log of the
wallet document is in the order 2, 1, 0; `getWalletDetails` does the same.
Neither handler saves, the store is not written. -/
theorem C11_unfiltered_history_reorders_log :
    (findWallet chronoDb 1).map (fun w => w.transactions.map (fun t => t.id))
      = some [0, 1, 2] ∧
    (getTransactionHistory (fun _ => none) chronoDb 1 {}).wallet.map
      (fun w => w.transactions.map (fun t => t.id)) = some [2, 1, 0] ∧
    (getTransactionHistory (fun _ => none) chronoDb 1 {}).wallet ≠ findWallet chronoDb 1 ∧
    (getWalletDetails chronoDb 1).wallet.map
      (fun w => w.transactions.map (fun t => t.id)) = some [2, 1, 0] ∧
    (getWalletDetails chronoDb 1).wallet ≠ findWallet chronoDb 1 ∧
    (getTransactionHistory (fun _ => none) chronoDb 1 { type := some "CREDIT" }).wallet
      = findWallet chronoDb 1 := by
  decide

/-! ## addFunds -/

theorem getLast?_append_one {α : Type} (l : List α) (a : α) : (l ++ [a]).getLast? = some a := by
  simp

/-- C13: for an MCP account with a stored (schema-valid) wallet of balance `b`
and every amount `a > 0`, `addFunds` answers success with balance `b + a`;
the stored wallet then has balance `b + a` and its log is the former log
followed by one record, the one returned, a COMPLETED CREDIT of `a` whose
reference is `ADD-` followed by the clock value.  For a caller whose role is
not MCP and for a caller without wallet it answers with a failure and the
store is unchanged. -/
theorem C13_addFunds (db : Db) (userId : Nat) (a : Int) (paymentMethod : Option String)
    (paymentDetails : Option Metadata) (now : Int) (oid : Nat) :
    (∀ (user : User) (w : Wallet), findUser db userId = some user → user.role = "MCP" →
      findWallet db userId = some w → validate w = true → 0 < a →
      ∃ (t : Transaction) (w' : Wallet),
        (addFunds db userId a paymentMethod paymentDetails now oid).response.success = true ∧
        (addFunds db userId a paymentMethod paymentDetails now oid).response.data
          = some { balance := w.balance + a, transaction := some t } ∧
        findWallet (addFunds db userId a paymentMethod paymentDetails now oid).db userId
          = some w' ∧
        w'.balance = w.balance + a ∧
        w'.transactions = w.transactions ++ [t] ∧
        w'.transactions.length = w.transactions.length + 1 ∧
        t.type = "CREDIT" ∧ t.status = "COMPLETED" ∧ t.amount = a ∧
        t.reference = "ADD-" ++ toString now) ∧
    (∀ user : User, findUser db userId = some user → user.role ≠ "MCP" →
      (addFunds db userId a paymentMethod paymentDetails now oid).response.success = false ∧
      (addFunds db userId a paymentMethod paymentDetails now oid).db = db) ∧
    (findWallet db userId = none →
      (addFunds db userId a paymentMethod paymentDetails now oid).response.success = false ∧
      (addFunds db userId a paymentMethod paymentDetails now oid).db = db) := by
  refine ⟨?_, ?_, ?_⟩
  · intro user w hu hrole hw hv hpos
    have hid : w.userId = userId := findWallet_userId hw
    have hadd := addTransaction_completed_credit w
      { type := "CREDIT", amount := a, description := "Funds added to wallet"
        reference := "ADD-" ++ toString now, status := some "COMPLETED"
        metadata := paymentMetadata paymentMethod paymentDetails } oid now hv rfl rfl
        (by simp) (append_ne_empty _ _ (by decide)) (le_of_lt hpos)
    refine ⟨castTransaction
      { type := "CREDIT", amount := a, description := "Funds added to wallet"
        reference := "ADD-" ++ toString now, status := some "COMPLETED"
        metadata := paymentMetadata paymentMethod paymentDetails } oid now,
      { w with balance := w.balance + a
               transactions := w.transactions ++ [castTransaction
                 { type := "CREDIT", amount := a, description := "Funds added to wallet"
                   reference := "ADD-" ++ toString now, status := some "COMPLETED"
                   metadata := paymentMetadata paymentMethod paymentDetails } oid now]
               lastUpdated := now }, ?_, ?_, ?_, rfl, rfl, by simp, rfl, rfl, rfl, rfl⟩
    · unfold addFunds
      simp only [hu, hrole, hw, hadd, ne_eq, not_true_eq_false, if_false]
    · unfold addFunds
      simp only [hu, hrole, hw, hadd, ne_eq, not_true_eq_false, if_false,
        getLast?_append_one]
    · unfold addFunds
      simp only [hu, hrole, hw, hadd, ne_eq, not_true_eq_false, if_false]
      exact findWallet_saveWallet_same db userId w _ hw hid
  · intro user hu hrole
    unfold addFunds
    simp only [hu, ne_eq, hrole, not_false_eq_true, if_true]
    exact ⟨rfl, rfl⟩
  · intro hw
    unfold addFunds
    cases hu : findUser db userId with
    | none => exact ⟨rfl, rfl⟩
    | some user =>
      simp only [hw]
      by_cases hrole : user.role = "MCP"
      · simp only [ne_eq, hrole, not_true_eq_false, if_false]
        exact ⟨rfl, rfl⟩
      · simp only [ne_eq, hrole, not_false_eq_true, if_true]
        exact ⟨rfl, rfl⟩

theorem C13_addFunds_witness :
    findUser emptyMcpDb 1 = some scenarioMcp ∧
    findWallet emptyMcpDb 1 = some (fundedWallet 0) ∧
    (∃ (t : Transaction) (w' : Wallet),
      (addFunds emptyMcpDb 1 500 (some "UPI") none 1000 31).response.success = true ∧
      (addFunds emptyMcpDb 1 500 (some "UPI") none 1000 31).response.data
        = some { balance := (fundedWallet 0).balance + 500, transaction := some t } ∧
      findWallet (addFunds emptyMcpDb 1 500 (some "UPI") none 1000 31).db 1 = some w' ∧
      w'.balance = (fundedWallet 0).balance + 500 ∧
      w'.transactions = (fundedWallet 0).transactions ++ [t] ∧
      w'.transactions.length = (fundedWallet 0).transactions.length + 1 ∧
      t.type = "CREDIT" ∧ t.status = "COMPLETED" ∧ t.amount = 500 ∧
      t.reference = "ADD-" ++ toString (1000 : Int)) ∧
    ((addFunds emptyMcpDb 2 500 none none 1000 31).response.success = false ∧
      (addFunds emptyMcpDb 2 500 none none 1000 31).db = emptyMcpDb) :=
  ⟨by decide, by decide,
   (C13_addFunds emptyMcpDb 1 500 (some "UPI") none 1000 31).1 scenarioMcp (fundedWallet 0)
     (by decide) (by decide) (by decide) (by decide) (by decide),
   (C13_addFunds emptyMcpDb 2 500 none none 1000 31).2.1 scenarioPartner (by decide)
     (by decide)⟩

/-- Scenario A evaluated: balance 0, `addFunds` of 500 gives balance 500 and
a log of one CREDIT record. -/
theorem addFunds_scenarioA :
    (findWallet (addFunds emptyMcpDb 1 500 (some "UPI") none 1000 31).db 1).map
      (fun w => (w.balance, w.transactions.map (fun t => (t.type, t.amount, t.status))))
      = some (500, [("CREDIT", 500, "COMPLETED")]) := by
  decide

/-! ## Filters of the history -/

theorem applyFilters_eq_filter (parseDate : String → Option Int) (q : HistoryQuery)
    (l : List Transaction) : applyFilters parseDate q l = l.filter (selects parseDate q) := by
  unfold applyFilters
  cases h1 : (truthy q.startDate && truthy q.endDate) <;>
  cases h2 : truthy q.type <;>
  cases h3 : truthy q.status <;>
  simp only [h1, h2, h3, if_true, if_false, Bool.false_eq_true, List.filter_filter] <;>
  first
  | (apply List.filter_congr; intro r _; simp [selects, h1, h2, h3, Bool.and_comm])
  | (symm; rw [List.filter_eq_self]; intro r _; simp [selects, h1, h2, h3])

theorem sortByDateDesc_perm (l : List Transaction) : (sortByDateDesc l).Perm l :=
  List.perm_insertionSort _ l

theorem sortByDateDesc_sorted (l : List Transaction) :
    (sortByDateDesc l).Pairwise notOlder := by
  haveI : IsTotal Transaction (fun a b => b.createdAt ≤ a.createdAt) :=
    ⟨fun a b => le_total b.createdAt a.createdAt⟩
  haveI : IsTrans Transaction (fun a b => b.createdAt ≤ a.createdAt) :=
    ⟨fun a b c hab hbc => le_trans hbc hab⟩
  exact List.sorted_insertionSort (fun a b => b.createdAt ≤ a.createdAt) l

/-- C12, as stated, fails for a single date bound: with `startDate` alone
(2024-01-02, value 2) the result still holds the record created at 1, and
with `endDate` alone (value 4) it still holds the record created at 5; the
range is applied only when both bounds are given (then the result is the
record created at 3). -/
theorem C12_counterexample :
    sampleParseDate "2024-01-02" = some 2 ∧ sampleParseDate "2024-01-04" = some 4 ∧
    ((getTransactionHistory sampleParseDate datedDb 1
      { startDate := some "2024-01-02" }).response.data.map
        (fun d => d.transactions.map (fun t => t.createdAt))) = some [5, 3, 1] ∧
    ((getTransactionHistory sampleParseDate datedDb 1
      { endDate := some "2024-01-04" }).response.data.map
        (fun d => d.transactions.map (fun t => t.createdAt))) = some [5, 3, 1] ∧
    ((getTransactionHistory sampleParseDate datedDb 1
      { startDate := some "2024-01-02", endDate := some "2024-01-04" }).response.data.map
        (fun d => d.transactions.map (fun t => t.createdAt))) = some [3] := by
  decide

/-- C12 (amended): the response of `getTransactionHistory` is a slice of a
list `S`, whose length is the reported total, such that `S` holds exactly the
records of the log (each as often as in the log) that the query selects:
between `startDate` and `endDate`, both ends included, when both are supplied
(a single bound is ignored), of the requested type when one is supplied, of
the requested status when one is supplied, all taken together; and `S` is
ordered by `createdAt` non-increasing. -/
theorem C12_filter_semantics (parseDate : String → Option Int) (db : Db) (userId : Nat)
    (q : HistoryQuery) (w : Wallet) (hw : findWallet db userId = some w) :
    ∃ (S : List Transaction) (start stop : JsValue),
      (getTransactionHistory parseDate db userId q).response.data.map
        (fun d => d.transactions) = some (slice S start stop) ∧
      (getTransactionHistory parseDate db userId q).response.data.map
        (fun d => d.pagination.total) = some S.length ∧
      S.Perm (w.transactions.filter (selects parseDate q)) ∧
      (∀ r, r ∈ S ↔ r ∈ w.transactions ∧ selects parseDate q r = true) ∧
      S.Pairwise notOlder := by
  have hp := sortByDateDesc_perm (w.transactions.filter (selects parseDate q))
  have hmem : ∀ r, r ∈ sortByDateDesc (w.transactions.filter (selects parseDate q)) ↔
      r ∈ w.transactions ∧ selects parseDate q r = true := by
    intro r
    rw [hp.mem_iff, List.mem_filter]
  unfold getTransactionHistory
  simp only [hw, applyFilters_eq_filter, Option.map_some']
  exact ⟨_, _, _, rfl, rfl, hp, hmem, sortByDateDesc_sorted _⟩

theorem C12_filter_semantics_witness :
    findWallet datedDb 1 = some datedWallet ∧
    (∃ (S : List Transaction) (start stop : JsValue),
      (getTransactionHistory sampleParseDate datedDb 1
        { startDate := some "2024-01-02", endDate := some "2024-01-04" }).response.data.map
        (fun d => d.transactions) = some (slice S start stop) ∧
      (getTransactionHistory sampleParseDate datedDb 1
        { startDate := some "2024-01-02", endDate := some "2024-01-04" }).response.data.map
        (fun d => d.pagination.total) = some S.length ∧
      S.Perm (datedWallet.transactions.filter (selects sampleParseDate
        { startDate := some "2024-01-02", endDate := some "2024-01-04" })) ∧
      (∀ r, r ∈ S ↔ r ∈ datedWallet.transactions ∧ selects sampleParseDate
        { startDate := some "2024-01-02", endDate := some "2024-01-04" } r = true) ∧
      S.Pairwise notOlder) :=
  ⟨by decide,
   C12_filter_semantics sampleParseDate datedDb 1
     { startDate := some "2024-01-02", endDate := some "2024-01-04" } datedWallet (by decide)⟩

/-! ## modifyWallet -/

theorem find_replaceUser_same (l : List User) (id : Nat) (u d : User)
    (h : l.find? (fun u => decide (u.id = id)) = some u) (hd : d.id = id) :
    (replaceUser l d).find? (fun u => decide (u.id = id)) = some d := by
  induction l with
  | nil => simp at h
  | cons a l ih =>
    by_cases ha : a.id = id
    · simp [replaceUser, ha, hd, List.find?_cons]
    · have hne : ¬ a.id = d.id := by rw [hd]; exact ha
      rw [List.find?_cons] at h
      simp only [ha, decide_False] at h
      simp [replaceUser, hne, List.find?_cons, ha, ih h]

/-- An account whose role is not the string `PickupPartner` (for instance the
`PICKUP_PARTNER` of the seed and of `transferFunds`) is answered 404 and the
store is unchanged. -/
theorem modifyWallet_other_role (userValid : User → Bool)
    (transactionValid : TransactionDoc → Bool) (db : Db) (userId : Nat) (a : Int)
    (type : String) (reason : Option String) (oid : Nat) (u : User)
    (hu : findUser db userId = some u) (hrole : u.role ≠ "PickupPartner") :
    (modifyWallet userValid transactionValid db userId a type reason oid).response.status = 404 ∧
    (modifyWallet userValid transactionValid db userId a type reason oid).db = db := by
  unfold modifyWallet
  simp [hu, hrole]

/-- What `modifyWallet` does for an account whose role is the string
`PickupPartner`, with `walletBalance = b`: type `credit` stores `b + a`, type
`debit` with `a ≤ b` stores `b - a` (when the user document passes its schema
validation at `save()`); `debit` with `b < a` is answered 400
`Insufficient balance` and any other type 400 `Invalid transaction type`, both
with the store unchanged; and whenever the answer is the success answer,
exactly one transaction document has been added, the one returned, and its
`balanceAfter` is the stored `walletBalance`. -/
theorem modifyWallet_accepted_role (userValid : User → Bool) (transactionValid : TransactionDoc → Bool)
    (db : Db) (userId : Nat) (a : Int) (type : String) (reason : Option String) (oid : Nat)
    (partner : User) (hp : findUser db userId = some partner)
    (hrole : partner.role = "PickupPartner") :
    (type = "credit" →
      userValid { partner with walletBalance := partner.walletBalance + a } = true →
      (findUser (modifyWallet userValid transactionValid db userId a type reason oid).db
        userId).map (fun u => u.walletBalance) = some (partner.walletBalance + a)) ∧
    (type = "debit" → a ≤ partner.walletBalance →
      userValid { partner with walletBalance := partner.walletBalance - a } = true →
      (findUser (modifyWallet userValid transactionValid db userId a type reason oid).db
        userId).map (fun u => u.walletBalance) = some (partner.walletBalance - a)) ∧
    (type = "debit" → partner.walletBalance < a →
      (modifyWallet userValid transactionValid db userId a type reason oid).response.status
        = 400 ∧
      (modifyWallet userValid transactionValid db userId a type reason oid).response.message
        = "Insufficient balance" ∧
      (modifyWallet userValid transactionValid db userId a type reason oid).db = db) ∧
    (type ≠ "credit" → type ≠ "debit" →
      (modifyWallet userValid transactionValid db userId a type reason oid).response.status
        = 400 ∧
      (modifyWallet userValid transactionValid db userId a type reason oid).response.message
        = "Invalid transaction type" ∧
      (modifyWallet userValid transactionValid db userId a type reason oid).db = db) ∧
    ((modifyWallet userValid transactionValid db userId a type reason oid).response.status
        = 200 →
      ∃ e : TransactionDoc,
        (modifyWallet userValid transactionValid db userId a type reason oid).db.transactions
          = db.transactions ++ [e] ∧
        (modifyWallet userValid transactionValid db userId a type reason oid).response.transaction
          = some e ∧
        e.amount = a ∧ e.type = type ∧
        (findUser (modifyWallet userValid transactionValid db userId a type reason oid).db
          userId).map (fun u => u.walletBalance) = some e.balanceAfter) := by
  have hid : partner.id = userId := findUser_id hp
  have hfound : ∀ (d : User) (txs : List TransactionDoc), d.id = userId →
      findUser { users := replaceUser db.users d, wallets := db.wallets
                 transactions := txs } userId = some d :=
    fun d _ hd => find_replaceUser_same db.users userId partner d hp hd
  unfold modifyWallet
  simp only [hp, hrole, ne_eq, not_true_eq_false, if_false]
  refine ⟨?_, ?_, ?_, ?_, ?_⟩
  · intro ht hv
    simp only [ht, if_true, hv]
    split_ifs <;> simp [hfound, hid]
  · intro ht hle hv
    simp only [ht, if_true, hv, not_lt.2 hle, if_false]
    rw [if_neg (by decide)]
    split_ifs <;> simp [hfound, hid]
  · intro ht hlt
    simp only [ht, hlt, if_true]
    rw [if_neg (by decide)]
    exact ⟨rfl, rfl, rfl⟩
  · intro h1 h2
    simp [h1, h2]
  · intro hs
    split_ifs at hs ⊢ <;> first
      | (simp at hs; done)
      | exact ⟨_, rfl, rfl, rfl, rfl, by simp [hfound, hid]⟩

/-- For an account whose role is the string `PickupPartner`, a `credit`, or a
`debit` covered by the balance, whose two documents pass their schema
validation is answered with the success answer, and the one transaction
document it adds is the one returned. -/
theorem modifyWallet_accepted_role_succeeds (userValid : User → Bool)
    (transactionValid : TransactionDoc → Bool) (db : Db) (userId : Nat) (a : Int)
    (type : String) (reason : Option String) (oid : Nat) (partner : User) (nb : Int)
    (hp : findUser db userId = some partner) (hrole : partner.role = "PickupPartner")
    (hnb : (type = "credit" ∧ nb = partner.walletBalance + a) ∨
      (type = "debit" ∧ a ≤ partner.walletBalance ∧ nb = partner.walletBalance - a))
    (hu : userValid { partner with walletBalance := nb } = true)
    (ht : transactionValid { id := oid, userId := userId, amount := a, type := type
                             reason := reason, balanceAfter := nb } = true) :
    (modifyWallet userValid transactionValid db userId a type reason oid).response
      = { status := 200, message := "Transaction successful", error := none
          transaction := some { id := oid, userId := userId, amount := a, type := type
                                reason := reason, balanceAfter := nb } } ∧
    (modifyWallet userValid transactionValid db userId a type reason oid).db.transactions
      = db.transactions ++ [{ id := oid, userId := userId, amount := a, type := type
                              reason := reason, balanceAfter := nb }] := by
  have hr : ¬ (partner.role ≠ "PickupPartner") := by simp [hrole]
  unfold modifyWallet
  simp only [hp]
  rw [if_neg hr]
  rcases hnb with ⟨hty, rfl⟩ | ⟨hty, hle, rfl⟩
  · subst hty
    simp only [if_true, hu, ht]
    exact ⟨trivial, trivial⟩
  · subst hty
    rw [if_neg (by decide)]
    simp only [if_true, hu, ht, not_lt.2 hle, if_false]
    exact ⟨trivial, trivial⟩

/-- C14, failing input: the pickup partner of the seed (role
`PICKUP_PARTNER`, the role that `transferFunds` requires of a pickup partner)
with `walletBalance = 0`, body `type = credit`, `amount = 30`.  The handler
compares the role with the string `PickupPartner`, answers 404
`Pickup Partner not found` and changes nothing: the balance stays 0 and no
transaction is created, where the claim has balance 30 and one transaction.
The same account is accepted as pickup partner by `transferFunds`. -/
theorem C14_seeded_partner_not_found :
    (findUser scenarioDb 2).map (fun u => (u.role, u.walletBalance))
      = some ("PICKUP_PARTNER", 0) ∧
    (modifyWallet (fun _ => true) (fun _ => true) scenarioDb 2 30 "credit" none 41).response
      = { status := 404, message := "Pickup Partner not found", error := none
          transaction := none } ∧
    (modifyWallet (fun _ => true) (fun _ => true) scenarioDb 2 30 "credit" none 41).db
      = scenarioDb ∧
    (findUser (modifyWallet (fun _ => true) (fun _ => true) scenarioDb 2 30 "credit" none
      41).db 2).map (fun u => u.walletBalance) = some 0 ∧
    (modifyWallet (fun _ => true) (fun _ => true) scenarioDb 2 30 "credit" none
      41).db.transactions = [] ∧
    (transferFunds scenarioDb 1 2 100 none 1000 11 12).response.success = true := by
  decide

/-- The handler evaluated on an account with role `PickupPartner` and balance
100: a credit of 30 stores 130 and one transaction with `balanceAfter = 130`;
a debit of 150 is answered 400 and changes nothing; the account with role
`PICKUP_PARTNER` is answered 404. -/
theorem modifyWallet_examples :
    (findUser (modifyWallet (fun _ => true) (fun _ => true) legacyDb 5 30 "credit" none 41).db
      5).map (fun u => u.walletBalance) = some 130 ∧
    (modifyWallet (fun _ => true) (fun _ => true) legacyDb 5 30 "credit" none
      41).db.transactions.map (fun e => e.balanceAfter) = [130] ∧
    (modifyWallet (fun _ => true) (fun _ => true) legacyDb 5 150 "debit" none
      41).response.status = 400 ∧
    (modifyWallet (fun _ => true) (fun _ => true) legacyDb 5 150 "debit" none 41).db
      = legacyDb ∧
    (modifyWallet (fun _ => true) (fun _ => true) legacyDb 2 30 "credit" none
      41).response.status = 404 := by
  decide

end MCPSystem
